import Mathlib

/-!
Verification of the browser-fingerprint generation and injection engine.

The JavaScript source draws randomness from `Math.random()`; we model that
source as a stream `s : ℕ → ℚ` of values in `[0, 1)` together with an index
that advances by one at every draw.  Every generator is translated as a
function of the stream and the current index, returning its value and the
next index, so the sequential consumption of `Math.random()` calls is
explicit.  Strings are Lean `String`s; the regex-based parsing of the
user-agent string is translated as a left-to-right scan over `String.data`.
-/

namespace BFP

/-! ### Decimal and hexadecimal printing of numbers

JavaScript template literals print integers in decimal; the seed generators
print nibbles with `toString(16)`.  We translate both with fuel-based
structural recursion so the kernel can evaluate them. -/

def digitChar (n : ℕ) : Char := Char.ofNat (48 + n)

def hexChar (n : ℕ) : Char := if n < 10 then digitChar n else Char.ofNat (87 + n)

def natDigitsAux : ℕ → ℕ → List Char
  | 0, _ => []
  | fuel + 1, n =>
    if n < 10 then [digitChar n]
    else natDigitsAux fuel (n / 10) ++ [digitChar (n % 10)]

def natDigits (n : ℕ) : List Char := natDigitsAux (n + 1) n

def natRepr (n : ℕ) : String := ⟨natDigits n⟩

/-- JavaScript number printing of an integer value. -/
def intRepr (z : ℤ) : String := if z < 0 then "-" ++ natRepr z.natAbs else natRepr z.toNat

def isPre : List Char → List Char → Bool
  | [], _ => true
  | _ :: _, [] => false
  | c :: cs, d :: ds => if c = d then isPre cs ds else false

def containsSub (n : List Char) : List Char → Bool
  | [] => isPre n []
  | c :: t => isPre n (c :: t) || containsSub n t

/-- Character-level view of the Chrome version string
`major.0.build.patch` produced by `generateChromeVersion`. -/
def verData (mj bld pt : ℕ) : List Char :=
  natDigits mj ++ '.' :: '0' :: '.' :: (natDigits bld ++ '.' :: natDigits pt)

def Gen (α : Type) : Type := (ℕ → ℚ) → ℕ → α × ℕ

def gpure {α : Type} (a : α) : Gen α := fun _ k => (a, k)

def gbind {α β : Type} (g : Gen α) (f : α → Gen β) : Gen β := fun s k =>
  let r := g s k
  f r.1 s r.2

/-- One call to `Math.random()`. -/
def randomFloat : Gen ℚ := fun s k => (s k, k + 1)

/-- `randomInt(min, max)` from `ua.ts`:
`Math.floor(Math.random() * (max - min + 1)) + min`. -/
def randomInt (lo hi : ℤ) : Gen ℤ :=
  gbind randomFloat fun r => gpure (⌊r * (hi - lo + 1)⌋ + lo)

/-- `randomChoice(arr)`: `arr[Math.floor(Math.random() * arr.length)]`.
An out-of-range index (impossible while the draw is in `[0,1)`) is modelled
by the supplied default. -/
def randomChoice {α : Type} (l : List α) (dflt : α) : Gen α :=
  gbind randomFloat fun r => gpure (l.getD (⌊r * l.length⌋).toNat dflt)

/-- `g` reads the stream only inside the window `[k, k + n)` and leaves the
index inside `[k, k + n]`. -/
def ReadsWithin {α : Type} (g : Gen α) (n : ℕ) : Prop :=
  ∀ s1 s2 k, (∀ i, k ≤ i → i < k + n → s1 i = s2 i) →
    g s1 k = g s2 k ∧ k ≤ (g s1 k).2 ∧ (g s1 k).2 ≤ k + n

inductive PlatformType where
  | windows
  | mac
  | linux
  | random
deriving DecidableEq

/-- `PLATFORMS.windows.versions`. -/
def windowsVersions : List String := ["10.0", "11.0"]

/-- `PLATFORMS.windows.arch`. -/
def windowsArch : List String := ["Win64; x64"]

/-- `PLATFORMS.mac.versions`. -/
def macVersions : List String := ["10_15_7", "11_0", "12_0", "13_0", "14_0"]

/-- `generateChromeVersion`: major in 110..120, minor 0, build 5000..6000,
patch 0..200, formatted `major.minor.build.patch`. -/
def generateChromeVersion : Gen String :=
  gbind (randomInt 110 120) fun major =>
  gbind (randomInt 5000 6000) fun build =>
  gbind (randomInt 0 200) fun patch =>
  gpure (intRepr major ++ "." ++ intRepr 0 ++ "." ++ intRepr build ++ "." ++ intRepr patch)

def generateWindowsUA : Gen String :=
  gbind generateChromeVersion fun chromeVersion =>
  gbind (randomChoice windowsVersions ("")) fun ntVersion =>
  gbind (randomChoice windowsArch ("")) fun arch =>
  gpure ("Mozilla/5.0 (Windows NT " ++ ntVersion ++ "; " ++ arch ++
    ") AppleWebKit/537.36 (KHTML, like Gecko) Chrome/" ++ chromeVersion ++ " Safari/537.36")

def generateMacUA : Gen String :=
  gbind generateChromeVersion fun chromeVersion =>
  gbind (randomChoice macVersions ("")) fun osVersion =>
  gpure ("Mozilla/5.0 (Macintosh; Intel Mac OS X " ++ osVersion ++
    ") AppleWebKit/537.36 (KHTML, like Gecko) Chrome/" ++ chromeVersion ++ " Safari/537.36")

def generateLinuxUA : Gen String :=
  gbind generateChromeVersion fun chromeVersion =>
  gpure ("Mozilla/5.0 (X11; Linux x86_64) AppleWebKit/537.36 (KHTML, like Gecko) Chrome/" ++
    chromeVersion ++ " Safari/537.36")

/-- The cumulative-threshold loop of `generateUA` for `platform === 'random'`
with `weights = [0.7, 0.2, 0.1]`; if no threshold fires the variable keeps the
value `random` (the `switch` default then produces a Windows UA). -/
def resolveRandomPlatform (r : ℚ) : PlatformType :=
  if r < 7/10 then .windows
  else if r < 7/10 + 2/10 then .mac
  else if r < 7/10 + 2/10 + 1/10 then .linux
  else .random

/-- The `switch (platform)` dispatch of `generateUA`; the `default` arm
returns a Windows UA. -/
def dispatchUA : PlatformType → Gen String
  | .windows => generateWindowsUA
  | .mac => generateMacUA
  | .linux => generateLinuxUA
  | .random => generateWindowsUA

def generateUA : PlatformType → Gen String
  | .random => gbind randomFloat fun r => dispatchUA (resolveRandomPlatform r)
  | .windows => dispatchUA .windows
  | .mac => dispatchUA .mac
  | .linux => dispatchUA .linux

def takeDigits (l : List Char) : List Char := l.takeWhile (·.isDigit)

def dropDigits (l : List Char) : List Char := l.dropWhile (·.isDigit)

/-- Match `\d+\.\d+\.\d+\.\d+` at the start of `l`, returning the matched
characters. -/
def parseVerAt (l : List Char) : Option (List Char) :=
  let d1 := takeDigits l
  if d1.isEmpty then none else
  match dropDigits l with
  | '.' :: r1 =>
    let d2 := takeDigits r1
    if d2.isEmpty then none else
    match dropDigits r1 with
    | '.' :: r2 =>
      let d3 := takeDigits r2
      if d3.isEmpty then none else
      match dropDigits r2 with
      | '.' :: r3 =>
        let d4 := takeDigits r3
        if d4.isEmpty then none else
        some (d1 ++ '.' :: (d2 ++ '.' :: (d3 ++ '.' :: d4)))
      | _ => none
    | _ => none
  | _ => none

def chromeToken : List Char := ('C') :: ('h') :: ('r') :: ('o') :: ('m') :: ('e') :: ('/') :: []

/-- First match of `Chrome\/(\d+\.\d+\.\d+\.\d+)`, returning the capture
group. -/
def findChrome : List Char → Option (List Char)
  | [] => none
  | c :: t =>
    if isPre chromeToken (c :: t) = true then
      match parseVerAt ((c :: t).drop 7) with
      | some v => some v
      | none => findChrome t
    else findChrome t

/-- First match of `\(([^)]+)\)`, returning the capture group. -/
def findParen : List Char → Option (List Char)
  | [] => none
  | c :: t =>
    if c = '(' then
      let inner := t.takeWhile (fun d => d ≠ ')')
      if inner.isEmpty then findParen t
      else
        match t.dropWhile (fun d => d ≠ ')') with
        | ')' :: _ => some inner
        | _ => findParen t
    else findParen t

structure UAComponents where
  platform : String
  platformVersion : String
  browser : String
  browserVersion : String
  webkit : String
  chrome : String
deriving DecidableEq

def parseUA (ua : String) : Option UAComponents :=
  match findChrome ua.data, findParen ua.data with
  | some chrome, some plat =>
    some { platform := ⟨plat⟩, platformVersion := "", browser := "Chrome",
           browserVersion := ⟨chrome⟩, webkit := "537.36", chrome := ⟨chrome⟩ }
  | _, _ => none

/-- The `sec-ch-ua` header value built from the major-version token. -/
def brandHeader (mj : String) : String :=
  "\"Chromium\";v=\"" ++ mj ++ "\", \"Google Chrome\";v=\"" ++ mj ++
    "\", \"Not=A?Brand\";v=\"8\""

/-- `generateClientHints`: an empty record when `parseUA` fails, otherwise
the three `sec-ch-ua*` headers; `majorVersion` is `browserVersion.split('.')[0]`. -/
def generateClientHints (ua : String) : List (String × String) :=
  match parseUA ua with
  | none => []
  | some parsed =>
    let majorVersion : String := ⟨parsed.browserVersion.data.takeWhile (fun c => c ≠ '.')⟩
    [("sec-ch-ua", brandHeader majorVersion),
     ("sec-ch-ua-mobile", "?0"),
     ("sec-ch-ua-platform",
       if containsSub (("Windows").data) ua.data then "\"Windows\""
       else if containsSub (("Mac").data) ua.data then "\"macOS\"" else "\"Linux\"")]

def lookupHeader (hs : List (String × String)) (k : String) : Option String :=
  (hs.find? (fun e => e.1 == k)).map (fun e => e.2)

/-! ### Canvas noise (`src/fingerprint/canvas.ts`) -/

structure CanvasNoiseConfig where
  enabled : Bool
  noise : ℚ
  seed : String
deriving DecidableEq

/-- One hex nibble of a generated seed:
`Math.floor(Math.random() * 16).toString(16)`. -/
def genHexList : ℕ → Gen (List Char)
  | 0 => gpure []
  | n + 1 =>
    gbind randomFloat fun r =>
    gbind (genHexList n) fun rest =>
    gpure (hexChar (⌊r * 16⌋).toNat :: rest)

/-- The common 32-nibble seed generator used by
`generateCanvasNoiseSeed` / `generateWebGLSeed` / `generateHardwareSeed`. -/
def generateSeed32 : Gen String :=
  gbind (genHexList 32) fun l => gpure ⟨l⟩

def generateCanvasNoiseSeed : Gen String := generateSeed32

/-- `getDefaultCanvasConfig()`: `{enabled: true, noise: 3, seed: ...}`. -/
def getDefaultCanvasConfig : Gen CanvasNoiseConfig :=
  gbind generateCanvasNoiseSeed fun sd => gpure { enabled := true, noise := 3, seed := sd }

/-- One perturbed colour channel of `addNoise`:
`Math.max(0, Math.min(255, value + Math.floor((random() - 0.5) * noiseScale * 10)))`. -/
def perturbChannel (noiseScale : ℚ) (r : ℚ) (v : ℕ) : ℕ :=
  (max 0 (min 255 ((v : ℤ) + ⌊(r - 1/2) * noiseScale * 10⌋))).toNat

/-- The pixel loop of `addNoise`, walking RGBA quadruples; `rand` is the
stream of the seeded generator `seededRandom(config.seed + '_canvas')` and
`k` its next position.  Writes past the end of the buffer (possible only
when the length is not a multiple of 4) are dropped, as for a
`Uint8ClampedArray`. -/
def addNoiseFrom (noiseScale : ℚ) (rand : ℕ → ℚ) (k : ℕ) : List ℕ → List ℕ
  | r :: g :: b :: a :: rest =>
    perturbChannel noiseScale (rand k) r ::
    perturbChannel noiseScale (rand (k + 1)) g ::
    perturbChannel noiseScale (rand (k + 2)) b ::
    a :: addNoiseFrom noiseScale rand (k + 3) rest
  | [r, g, b] =>
    [perturbChannel noiseScale (rand k) r,
     perturbChannel noiseScale (rand (k + 1)) g,
     perturbChannel noiseScale (rand (k + 2)) b]
  | [r, g] =>
    [perturbChannel noiseScale (rand k) r,
     perturbChannel noiseScale (rand (k + 1)) g]
  | [r] => [perturbChannel noiseScale (rand k) r]
  | [] => []

/-- `addNoise(imageData)` over a pixel buffer; the seeded generator is
restarted from the seed on every call. -/
def addNoise (noiseScale : ℚ) (rand : ℕ → ℚ) (data : List ℕ) : List ℕ :=
  addNoiseFrom noiseScale rand 0 data

/-- The overridden `HTMLCanvasElement.prototype.toDataURL` of the canvas
injection script, acting on the canvas pixel buffer.  `origToDataURL` is the
saved original export function, `prng` the seeded-generator family
(`seededRandom`), which is deterministic in its seed string.  Mirrors the
source steps: read the image data, save a copy, overwrite the canvas with the
noised pixels, export, then write the saved copy back. -/
def toDataURLOverride (origToDataURL : List ℕ → String) (prng : String → ℕ → ℚ)
    (config : CanvasNoiseConfig) (canvas : List ℕ) : String × List ℕ :=
  if config.enabled = false then (origToDataURL canvas, canvas)
  else
    let imageData := canvas
    let originalData := imageData
    let noisyData := addNoise (config.noise / 100) (prng (config.seed ++ "_canvas")) imageData
    let afterPut := noisyData
    let result := origToDataURL afterPut
    let restored := originalData
    (result, restored)

/-! ### WebGL identity (`src/fingerprint/webgl.ts`) -/

structure GPUConfig where
  vendor : String
  renderer : String
deriving DecidableEq

def GPU_CONFIGS : List GPUConfig :=
  [⟨"Google Inc. (NVIDIA)", "ANGLE (NVIDIA, NVIDIA GeForce GTX 1650 Direct3D11 vs_5_0 ps_5_0, D3D11)"⟩,
   ⟨"Google Inc. (NVIDIA)", "ANGLE (NVIDIA, NVIDIA GeForce GTX 1660 SUPER Direct3D11 vs_5_0 ps_5_0, D3D11)"⟩,
   ⟨"Google Inc. (NVIDIA)", "ANGLE (NVIDIA, NVIDIA GeForce RTX 2060 Direct3D11 vs_5_0 ps_5_0, D3D11)"⟩,
   ⟨"Google Inc. (NVIDIA)", "ANGLE (NVIDIA, NVIDIA GeForce RTX 3060 Direct3D11 vs_5_0 ps_5_0, D3D11)"⟩,
   ⟨"Google Inc. (NVIDIA)", "ANGLE (NVIDIA, NVIDIA GeForce RTX 3070 Direct3D11 vs_5_0 ps_5_0, D3D11)"⟩,
   ⟨"Google Inc. (NVIDIA)", "ANGLE (NVIDIA, NVIDIA GeForce RTX 3080 Direct3D11 vs_5_0 ps_5_0, D3D11)"⟩,
   ⟨"Google Inc. (NVIDIA)", "ANGLE (NVIDIA, NVIDIA GeForce RTX 4060 Direct3D11 vs_5_0 ps_5_0, D3D11)"⟩,
   ⟨"Google Inc. (NVIDIA)", "ANGLE (NVIDIA, NVIDIA GeForce RTX 4070 Direct3D11 vs_5_0 ps_5_0, D3D11)"⟩,
   ⟨"Google Inc. (AMD)", "ANGLE (AMD, AMD Radeon RX 580 Series Direct3D11 vs_5_0 ps_5_0, D3D11)"⟩,
   ⟨"Google Inc. (AMD)", "ANGLE (AMD, AMD Radeon RX 5600 XT Direct3D11 vs_5_0 ps_5_0, D3D11)"⟩,
   ⟨"Google Inc. (AMD)", "ANGLE (AMD, AMD Radeon RX 6700 XT Direct3D11 vs_5_0 ps_5_0, D3D11)"⟩,
   ⟨"Google Inc. (AMD)", "ANGLE (AMD, AMD Radeon RX 6800 XT Direct3D11 vs_5_0 ps_5_0, D3D11)"⟩,
   ⟨"Google Inc. (Intel)", "ANGLE (Intel, Intel(R) UHD Graphics 630 Direct3D11 vs_5_0 ps_5_0, D3D11)"⟩,
   ⟨"Google Inc. (Intel)", "ANGLE (Intel, Intel(R) Iris(R) Xe Graphics Direct3D11 vs_5_0 ps_5_0, D3D11)"⟩,
   ⟨"Google Inc. (Intel)", "ANGLE (Intel, Intel(R) UHD Graphics 770 Direct3D11 vs_5_0 ps_5_0, D3D11)"⟩,
   ⟨"Google Inc. (Apple)", "ANGLE (Apple, Apple M1 Pro, OpenGL 4.1)"⟩,
   ⟨"Google Inc. (Apple)", "ANGLE (Apple, Apple M2, OpenGL 4.1)"⟩,
   ⟨"Google Inc. (Apple)", "ANGLE (Apple, Apple M2 Pro, OpenGL 4.1)"⟩]

def gpuFallback : GPUConfig := ⟨"", ""⟩

/-- `generateRandomGPU(platform)`: Apple-only table for mac, non-Apple for
windows/linux, whole table otherwise; an empty filter result falls back to
the whole table (`candidates.length ? candidates : GPU_CONFIGS`). -/
def generateRandomGPU (platform : PlatformType) : Gen GPUConfig :=
  if platform = .mac then
    let candidates := GPU_CONFIGS.filter fun g => containsSub (("(Apple)").data) g.vendor.data
    randomChoice (if candidates.length = 0 then GPU_CONFIGS else candidates) gpuFallback
  else if platform = .windows ∨ platform = .linux then
    let candidates := GPU_CONFIGS.filter fun g => !containsSub (("(Apple)").data) g.vendor.data
    randomChoice (if candidates.length = 0 then GPU_CONFIGS else candidates) gpuFallback
  else
    randomChoice GPU_CONFIGS gpuFallback

structure WebGLConfig where
  enabled : Bool
  vendor : String
  renderer : String
  seed : String
deriving DecidableEq

def generateWebGLSeed : Gen String := generateSeed32

/-- `getDefaultWebGLConfig(platform = 'random')`. -/
def getDefaultWebGLConfig (platform : PlatformType) : Gen WebGLConfig :=
  gbind (generateRandomGPU platform) fun gpu =>
  gbind generateWebGLSeed fun sd =>
  gpure { enabled := true, vendor := gpu.vendor, renderer := gpu.renderer, seed := sd }

structure ScreenRes where
  width : ℕ
  height : ℕ
deriving DecidableEq

def SCREEN_RESOLUTIONS : List ScreenRes :=
  [⟨1920, 1080⟩, ⟨2560, 1440⟩, ⟨1366, 768⟩, ⟨1536, 864⟩,
   ⟨1440, 900⟩, ⟨1680, 1050⟩, ⟨2560, 1600⟩, ⟨3840, 2160⟩]

def CPU_CORES : List ℕ := [4, 6, 8, 12, 16]

def MEMORY_SIZES : List ℕ := [4, 8, 16, 32]

structure LanguagePair where
  primary : String
  list : List String
deriving DecidableEq

def LANGUAGES : List LanguagePair :=
  [⟨"en-US", ["en-US", "en"]⟩, ⟨"en-GB", ["en-GB", "en"]⟩, ⟨"zh-CN", ["zh-CN", "zh"]⟩,
   ⟨"ja-JP", ["ja-JP", "ja", "en"]⟩, ⟨"ko-KR", ["ko-KR", "ko", "en"]⟩,
   ⟨"de-DE", ["de-DE", "de", "en"]⟩, ⟨"fr-FR", ["fr-FR", "fr", "en"]⟩]

def TIMEZONES : List String :=
  ["America/New_York", "America/Los_Angeles", "America/Chicago", "Europe/London",
   "Europe/Paris", "Europe/Berlin", "Asia/Tokyo", "Asia/Shanghai",
   "Asia/Singapore", "Australia/Sydney"]

def pixelRatioChoices : List ℚ := [1, 1.25, 1.5, 2]

/-- The body of `generateRandomHardware` without `enabled`/`seed`
(`Omit<HardwareConfig, 'enabled' | 'seed'>`). -/
structure HardwareData where
  hardwareConcurrency : ℕ
  deviceMemory : ℕ
  platform : String
  language : String
  languages : List String
  timezone : String
  screenWidth : ℕ
  screenHeight : ℕ
  colorDepth : ℕ
  pixelRatio : ℚ
deriving DecidableEq

/-- `generateRandomHardware(platform = 'random')`; the draws follow source
evaluation order: screen, language, platform resolution (only when
`'random'`), then cores, memory, timezone, pixel ratio inside the returned
object literal. -/
def generateRandomHardware (platform : PlatformType) : Gen HardwareData :=
  gbind (randomChoice SCREEN_RESOLUTIONS ⟨0, 0⟩) fun screen =>
  gbind (randomChoice LANGUAGES ⟨"", []⟩) fun lang =>
  gbind (if platform = .random then
           randomChoice [PlatformType.windows, .mac, .linux] .random
         else gpure platform) fun resolvedPlatform =>
  let navigatorPlatform : String :=
    if resolvedPlatform = .mac then "MacIntel"
    else if resolvedPlatform = .windows then "Win32"
    else "Linux x86_64"
  gbind (randomChoice CPU_CORES 0) fun cores =>
  gbind (randomChoice MEMORY_SIZES 0) fun mem =>
  gbind (randomChoice TIMEZONES ("")) fun tz =>
  gbind (randomChoice pixelRatioChoices 0) fun ratio =>
  gpure { hardwareConcurrency := cores, deviceMemory := mem,
          platform := navigatorPlatform, language := lang.primary,
          languages := lang.list, timezone := tz,
          screenWidth := screen.width, screenHeight := screen.height,
          colorDepth := 24, pixelRatio := ratio }

structure HardwareConfig where
  enabled : Bool
  hardwareConcurrency : ℕ
  deviceMemory : ℕ
  platform : String
  language : String
  languages : List String
  timezone : String
  screenWidth : ℕ
  screenHeight : ℕ
  colorDepth : ℕ
  pixelRatio : ℚ
  seed : String
deriving DecidableEq

def generateHardwareSeed : Gen String := generateSeed32

/-- `getDefaultHardwareConfig(platform = 'random')`. -/
def getDefaultHardwareConfig (platform : PlatformType) : Gen HardwareConfig :=
  gbind (generateRandomHardware platform) fun hw =>
  gbind generateHardwareSeed fun sd =>
  gpure { enabled := true, hardwareConcurrency := hw.hardwareConcurrency,
          deviceMemory := hw.deviceMemory, platform := hw.platform,
          language := hw.language, languages := hw.languages,
          timezone := hw.timezone, screenWidth := hw.screenWidth,
          screenHeight := hw.screenHeight, colorDepth := hw.colorDepth,
          pixelRatio := hw.pixelRatio, seed := sd }

structure FingerprintBundle where
  userAgent : String
  canvas : CanvasNoiseConfig
  webgl : WebGLConfig
  hardware : HardwareConfig
deriving DecidableEq

def createBundle (platform : PlatformType) : Gen FingerprintBundle :=
  gbind (generateUA platform) fun ua =>
  gbind getDefaultCanvasConfig fun cv =>
  gbind (getDefaultWebGLConfig .random) fun wg =>
  gbind (getDefaultHardwareConfig .random) fun hw =>
  gpure { userAgent := ua, canvas := cv, webgl := wg, hardware := hw }

structure ProxyConfig where
  proxyType : String
  host : Option String
  port : Option ℕ
  username : Option String
  password : Option String
  warpPort : Option ℕ
deriving DecidableEq

structure ProfileConfig where
  id : String
  name : String
  createdAt : String
  lastUsed : String
  userAgent : String
  platform : PlatformType
  canvas : CanvasNoiseConfig
  webgl : WebGLConfig
  hardware : HardwareConfig
  proxy : Option ProxyConfig
deriving DecidableEq

/-- The on-disk profile directory: one `config.json` per profile id. -/
abbrev ProfileStore := List (String × ProfileConfig)

/-- `ProfileManager.get`: read the profile's config, `null` when missing. -/
def getProfile (store : ProfileStore) (profileId : String) : Option ProfileConfig :=
  (store.find? (fun e => e.1 == profileId)).map (fun e => e.2)

/-- `fs.writeFileSync` of the profile's `config.json`. -/
def saveProfile (store : ProfileStore) (profileId : String) (cfg : ProfileConfig) :
    ProfileStore :=
  store.map (fun e => if e.1 == profileId then (profileId, cfg) else e)

/-- The four-field update object built by `regenerateFingerprint`. -/
structure FingerprintUpdates where
  userAgent : String
  canvas : CanvasNoiseConfig
  webgl : WebGLConfig
  hardware : HardwareConfig

/-- `ProfileManager.update` applied to the updates of
`regenerateFingerprint`: spread the stored config, spread the updates, then
set `lastUsed` to the current time; write back and return the result, or
return `null` and write nothing when the profile does not exist. -/
def updateProfile (store : ProfileStore) (profileId : String)
    (u : FingerprintUpdates) (now : String) : Option ProfileConfig × ProfileStore :=
  match getProfile store profileId with
  | none => (none, store)
  | some config =>
    let updated : ProfileConfig :=
      { config with userAgent := u.userAgent, canvas := u.canvas,
                    webgl := u.webgl, hardware := u.hardware, lastUsed := now }
    (some updated, saveProfile store profileId updated)

/-- `ProfileManager.regenerateFingerprint`: regenerate all four attribute
sets (again calling `getDefaultWebGLConfig()` / `getDefaultHardwareConfig()`
without a platform argument) and pass them to `update`. -/
def regenerateFingerprint (store : ProfileStore) (profileId : String) (now : String) :
    Gen (Option ProfileConfig × ProfileStore) := fun s k =>
  match getProfile store profileId with
  | none => ((none, store), k)
  | some config =>
    let r1 := generateUA config.platform s k
    let r2 := getDefaultCanvasConfig s r1.2
    let r3 := getDefaultWebGLConfig .random s r2.2
    let r4 := getDefaultHardwareConfig .random s r3.2
    (updateProfile store profileId
      { userAgent := r1.1, canvas := r2.1, webgl := r3.1, hardware := r4.1 } now, r4.2)

/-! ### The three injection payloads and their installation markers
(`canvas.ts`, `webgl.ts`, `hardware.ts`)

A document is modelled by the observable state the payloads change: the
three `window.__*Applied` markers, the canvas export functions, the
`getContext` wrapper and the installed hardware overrides.  Installing a
payload wraps the current functions in closures over the payload's config;
wrappers are represented syntactically so that double wrapping would be
visible in the state. -/

inductive ExportImpl where
  | native
  | wrapped (config : CanvasNoiseConfig) (inner : ExportImpl)
deriving DecidableEq

inductive ContextImpl where
  | native
  | wrapped (config : WebGLConfig) (inner : ContextImpl)
deriving DecidableEq

structure DocState where
  canvasNoiseApplied : Bool
  webglSpoofApplied : Bool
  hardwareSpoofApplied : Bool
  toDataURL : ExportImpl
  toBlob : ExportImpl
  getImageData : ExportImpl
  getContext : ContextImpl
  hardwareOverrides : Option HardwareConfig
deriving DecidableEq

/-- The canvas payload: `if (window.__canvasNoiseApplied) return;` then set
the marker and replace the three prototype methods. -/
def installCanvasPayload (config : CanvasNoiseConfig) (st : DocState) : DocState :=
  if st.canvasNoiseApplied then st
  else
    { st with canvasNoiseApplied := true,
              toDataURL := .wrapped config st.toDataURL,
              toBlob := .wrapped config st.toBlob,
              getImageData := .wrapped config st.getImageData }

/-- The WebGL payload: `if (window.__webglSpoofApplied) return;` then set the
marker; `if (!config.enabled) return;` then wrap `getContext`. -/
def installWebGLPayload (config : WebGLConfig) (st : DocState) : DocState :=
  if st.webglSpoofApplied then st
  else
    let st1 := { st with webglSpoofApplied := true }
    if config.enabled = false then st1
    else { st1 with getContext := .wrapped config st1.getContext }

/-- The hardware payload: `if (window.__hardwareSpoofApplied) return;` then
set the marker; `if (!config.enabled) return;` then install the overrides. -/
def installHardwarePayload (config : HardwareConfig) (st : DocState) : DocState :=
  if st.hardwareSpoofApplied then st
  else
    let st1 := { st with hardwareSpoofApplied := true }
    if config.enabled = false then st1
    else { st1 with hardwareOverrides := some config }

/-! ### The permissions-query override (`src/browser/launcher.ts`,
`hideAutomationIndicators`) -/

structure PermissionStatusM where
  state : String
deriving DecidableEq

/-- The replaced `window.navigator.permissions.query`: a fixed denied status
for `notifications`, everything else forwarded to the saved original. -/
def permissionsQueryOverride (originalQuery : String → PermissionStatusM)
    (name : String) : PermissionStatusM :=
  if name = "notifications" then { state := "denied" } else originalQuery name

/-! ### Helper lemmas about `randomChoice` and `addNoise` -/

/-- The stream on which every `Math.random()` call returns `0`. -/
def zs : ℕ → ℚ := fun _ => 0

/-- The stream on which every `Math.random()` call returns `1/2`. -/
def hs : ℕ → ℚ := fun _ => 1/2

/-- A concrete profile used by the C9 witness. -/
def exampleProfile : ProfileConfig :=
  { id := "id-1", name := "alice", createdAt := "2024-01-01", lastUsed := "2024-01-02",
    userAgent := "old-ua", platform := .mac,
    canvas := { enabled := true, noise := 3, seed := "aa" },
    webgl := { enabled := true, vendor := "v", renderer := "r", seed := "bb" },
    hardware := { enabled := true, hardwareConcurrency := 8, deviceMemory := 16,
                  platform := "MacIntel", language := "en-US", languages := ["en-US", "en"],
                  timezone := "Europe/Paris", screenWidth := 1440, screenHeight := 900,
                  colorDepth := 24, pixelRatio := 2, seed := "cc" },
    proxy := none }

/-- The property claimed of the client hints: a non-empty header record,
`sec-ch-ua` carrying a decimal major token that also occurs in the
user-agent after `Chrome/`, and `sec-ch-ua-platform` agreeing with the OS
token of the user-agent. -/
def clientHintsAgree (ua : String) : Prop :=
  generateClientHints ua ≠ [] ∧
  ∃ mj : ℕ,
    (natRepr mj).data ≠ [] ∧ (∀ c ∈ (natRepr mj).data, c.isDigit = true) ∧
    lookupHeader (generateClientHints ua) ("sec-ch-ua") = some (brandHeader (natRepr mj)) ∧
    containsSub (("Chrome/" ++ natRepr mj ++ ".").data) ua.data = true ∧
    ((containsSub (("Windows NT").data) ua.data = true ∧
      lookupHeader (generateClientHints ua) ("sec-ch-ua-platform") = some ("\"Windows\"")) ∨
     (containsSub (("Macintosh").data) ua.data = true ∧
      lookupHeader (generateClientHints ua) ("sec-ch-ua-platform") = some ("\"macOS\"")) ∨
     (containsSub (("X11; Linux x86_64").data) ua.data = true ∧
      lookupHeader (generateClientHints ua) ("sec-ch-ua-platform") = some ("\"Linux\"")))

lemma digitChar_isDigit {n : ℕ} (h : n < 10) : (digitChar n).isDigit = true := by
  interval_cases n <;> decide

lemma natDigitsAux_digits :
    ∀ fuel n, ∀ c ∈ natDigitsAux fuel n, c.isDigit = true := by
  intro fuel
  induction fuel with
  | zero => intro n c hc; simp [natDigitsAux] at hc
  | succ f ih =>
    intro n c hc
    unfold natDigitsAux at hc
    by_cases h : n < 10
    · simp [h] at hc
      subst hc
      exact digitChar_isDigit h
    · simp [h] at hc
      rcases hc with h1 | h2
      · exact ih _ _ h1
      · subst h2
        exact digitChar_isDigit (Nat.mod_lt _ (by norm_num))

lemma natDigits_digits {n : ℕ} : ∀ c ∈ natDigits n, c.isDigit = true :=
  natDigitsAux_digits (n + 1) n

lemma natDigitsAux_ne_nil (fuel n : ℕ) (h : 0 < fuel) : natDigitsAux fuel n ≠ [] := by
  cases fuel with
  | zero => omega
  | succ f =>
    unfold natDigitsAux
    by_cases h10 : n < 10 <;> simp [h10]

lemma natDigits_ne_nil {n : ℕ} : natDigits n ≠ [] :=
  natDigitsAux_ne_nil (n + 1) n (Nat.succ_pos n)

lemma isDigit_ne_of_not_isDigit {c d : Char} (hc : c.isDigit = true)
    (hd : d.isDigit = false) : c ≠ d := by
  intro h; rw [h] at hc; rw [hc] at hd; cases hd

/-! ### Boolean substring machinery

`isPre n l` translates "the string `l` starts with `n`"; `containsSub n l`
translates JavaScript's `l.includes(n)` (first-position-to-last scan). -/

lemma isPre_self_append (l m : List Char) : isPre l (l ++ m) = true := by
  induction l with
  | nil => rfl
  | cons c cs ih => simp [isPre, ih]

lemma isPre_length_le {n l : List Char} (h : isPre n l = true) : n.length ≤ l.length := by
  induction n generalizing l with
  | nil => simp
  | cons c cs ih =>
    cases l with
    | nil => simp [isPre] at h
    | cons d ds =>
      simp only [isPre] at h
      split at h
      · simpa using ih h
      · cases h

lemma isPre_of_isPre_append {n a b : List Char} (h : isPre n (a ++ b) = true)
    (hlen : n.length ≤ a.length) : isPre n a = true := by
  induction n generalizing a with
  | nil => rfl
  | cons c cs ih =>
    cases a with
    | nil => simp at hlen
    | cons d ds =>
      simp only [List.cons_append, isPre] at h ⊢
      split at h
      · rename_i hcd
        rw [if_pos hcd]
        exact ih h (by simpa using hlen)
      · cases h

lemma isPre_append_long {n a b : List Char} (h : isPre n (a ++ b) = true)
    (hlen : a.length < n.length) :
    isPre a n = true ∧ isPre (n.drop a.length) b = true := by
  induction a generalizing n with
  | nil => exact ⟨rfl, h⟩
  | cons d ds ih =>
    cases n with
    | nil => simp at hlen
    | cons c cs =>
      simp only [List.cons_append, isPre] at h
      split at h
      · rename_i hcd
        have := ih h (by simpa using hlen)
        refine ⟨?_, ?_⟩
        · simp only [isPre, hcd.symm, if_pos]
          exact this.1
        · simpa using this.2
      · cases h

lemma isPre_head {n l : List Char} {c : Char} {cs : List Char} (hn : n = c :: cs)
    (h : isPre n l = true) : l.head? = some c := by
  subst hn
  cases l with
  | nil => simp [isPre] at h
  | cons d ds =>
    simp only [isPre] at h
    split at h
    · rename_i hcd; simp [hcd]
    · cases h

lemma isPre_extend {n a : List Char} (b : List Char) (h : isPre n a = true) :
    isPre n (a ++ b) = true := by
  induction n generalizing a with
  | nil => rfl
  | cons c cs ih =>
    cases a with
    | nil => simp [isPre] at h
    | cons d ds =>
      simp only [isPre] at h ⊢
      split at h
      · rename_i hcd
        rw [if_pos hcd]
        exact ih h
      · cases h

lemma containsSub_append_left {n a : List Char} (b : List Char)
    (h : containsSub n a = true) : containsSub n (a ++ b) = true := by
  induction a with
  | nil =>
    simp only [containsSub] at h
    cases n with
    | nil => cases b <;> simp [containsSub, isPre]
    | cons c cs => simp [isPre] at h
  | cons c cs ih =>
    simp only [containsSub, Bool.or_eq_true] at h ⊢
    rcases h with h | h
    · left
      simpa using isPre_extend b h
    · right; exact ih h

lemma containsSub_of_isPre {n l : List Char} (h : isPre n l = true) :
    containsSub n l = true := by
  cases l with
  | nil => simpa [containsSub] using h
  | cons c cs => simp [containsSub, h]

lemma containsSub_append_right {n : List Char} (a : List Char) {b : List Char}
    (h : containsSub n b = true) : containsSub n (a ++ b) = true := by
  induction a with
  | nil => simpa using h
  | cons c cs ih => simp [containsSub, ih]

lemma containsSub_cons_false {n : List Char} {c : Char} {t : List Char}
    (h : containsSub n (c :: t) = false) :
    isPre n (c :: t) = false ∧ containsSub n t = false := by
  simpa [containsSub] using h

lemma containsSub_false_of_head_notMem {h0 : Char} {tl l : List Char} (hmem : h0 ∉ l) :
    containsSub (h0 :: tl) l = false := by
  induction l with
  | nil => rfl
  | cons c cs ih =>
    simp only [containsSub]
    have h1 : isPre (h0 :: tl) (c :: cs) = false := by
      simp only [isPre]
      rw [if_neg]
      intro hEq
      exact hmem (hEq ▸ List.mem_cons_self c cs)
    rw [h1, ih (fun hm => hmem (List.mem_cons_of_mem c hm))]
    rfl

lemma containsSub_digit_run_false {h0 : Char} {tl run : List Char}
    (hd : h0.isDigit = false) (hrun : ∀ c ∈ run, c.isDigit = true) :
    containsSub (h0 :: tl) run = false :=
  containsSub_false_of_head_notMem fun hm => by
    have := hrun h0 hm
    rw [this] at hd
    cases hd

lemma containsSub_single_false {h0 : Char} {tl : List Char} {d : Char}
    (h : d ∉ h0 :: tl) : containsSub (h0 :: tl) [d] = false :=
  containsSub_false_of_head_notMem fun hm => by
    have : h0 = d := by simpa using hm
    exact h (this ▸ List.mem_cons_self h0 tl)

lemma digit_not_mem {c : Char} {n : List Char} (hc : c.isDigit = true)
    (hn : ∀ x ∈ n, x.isDigit = false) : c ∉ n := fun hm => by
  have := hn c hm
  rw [hc] at this
  cases this

/-- Master refutation lemma: a needle occurs nowhere in `a ++ m` provided it
occurs nowhere in `a`, nowhere in `m`, and cannot span the border because the
first character of `m` is not a character of the needle. -/
lemma containsSub_append_false {h0 : Char} {tl : List Char} (a m : List Char) (c0 : Char)
    (ha : containsSub (h0 :: tl) a = false)
    (hm : m.head? = some c0) (hc0 : c0 ∉ h0 :: tl)
    (hrec : containsSub (h0 :: tl) m = false) :
    containsSub (h0 :: tl) (a ++ m) = false := by
  induction a with
  | nil => simpa using hrec
  | cons x xs ih =>
    obtain ⟨ha1, ha2⟩ := containsSub_cons_false ha
    have ihx := ih ha2
    rw [List.cons_append]
    simp only [containsSub, Bool.or_eq_false_iff]
    refine ⟨?_, ihx⟩
    by_cases hlen : (h0 :: tl).length ≤ (x :: xs).length
    · cases hPre : isPre (h0 :: tl) (x :: (xs ++ m)) with
      | false => rfl
      | true =>
        have hxm : isPre (h0 :: tl) ((x :: xs) ++ m) = true := by simpa using hPre
        have := isPre_of_isPre_append hxm hlen
        rw [this] at ha1
        cases ha1
    · push_neg at hlen
      cases hPre : isPre (h0 :: tl) (x :: (xs ++ m)) with
      | false => rfl
      | true =>
        have hxm : isPre (h0 :: tl) ((x :: xs) ++ m) = true := by simpa using hPre
        obtain ⟨_, hdrop⟩ := isPre_append_long hxm hlen
        have htne : (h0 :: tl).drop (x :: xs).length ≠ [] := by
          intro hempty
          have hld := List.length_drop (x :: xs).length (h0 :: tl)
          rw [hempty] at hld
          simp only [List.length_nil] at hld
          omega
        obtain ⟨th, ts, hts⟩ := List.exists_cons_of_ne_nil htne
        rw [hts] at hdrop
        have hhead := isPre_head rfl hdrop
        rw [hm] at hhead
        have hthc0 : th = c0 := by
          injection hhead with hh
          exact hh.symm
        have hmemdrop : th ∈ (h0 :: tl).drop (x :: xs).length := by
          rw [hts]; exact List.mem_cons_self th ts
        have hmem : th ∈ h0 :: tl := List.mem_of_mem_drop hmemdrop
        exact absurd (hthc0 ▸ hmem) hc0

/-- A needle containing no digit, no dot and no space, and occurring neither
in the concrete region `P` nor in `" Safari/537.36"`, does not occur in a full
user-agent tail `P ++ version ++ " Safari/537.36"`. -/
lemma containsSub_ver_safari_false {h0 : Char} {tl : List Char} (P : List Char)
    (mj bld pt : ℕ)
    (hP : containsSub (h0 :: tl) P = false)
    (hdig : ∀ c ∈ h0 :: tl, c.isDigit = false)
    (hdot : '.' ∉ h0 :: tl) (hsp : ' ' ∉ h0 :: tl)
    (hsaf : containsSub (h0 :: tl) ((" Safari/537.36").data) = false) :
    containsSub (h0 :: tl) (P ++ (verData mj bld pt ++ (" Safari/537.36").data)) = false := by
  have hh0 : h0.isDigit = false := hdig h0 (List.mem_cons_self h0 tl)
  obtain ⟨dp, dpt, hdp⟩ := List.exists_cons_of_ne_nil (natDigits_ne_nil (n := pt))
  obtain ⟨db, dbt, hdb⟩ := List.exists_cons_of_ne_nil (natDigits_ne_nil (n := bld))
  obtain ⟨dm, dmt, hdm⟩ := List.exists_cons_of_ne_nil (natDigits_ne_nil (n := mj))
  have hdp_dig : dp.isDigit = true := natDigits_digits dp (hdp ▸ List.mem_cons_self dp dpt)
  have hdb_dig : db.isDigit = true := natDigits_digits db (hdb ▸ List.mem_cons_self db dbt)
  have hdm_dig : dm.isDigit = true := natDigits_digits dm (hdm ▸ List.mem_cons_self dm dmt)
  have c2 : containsSub (h0 :: tl) (natDigits pt ++ (" Safari/537.36").data) = false :=
    containsSub_append_false _ _ ' '
      (containsSub_digit_run_false hh0 natDigits_digits) rfl hsp hsaf
  have c3 : containsSub (h0 :: tl) ('.' :: (natDigits pt ++ (" Safari/537.36").data)) = false :=
    containsSub_append_false ['.'] _ dp (containsSub_single_false hdot)
      (by rw [hdp]; rfl) (digit_not_mem hdp_dig hdig) c2
  have c4 : containsSub (h0 :: tl)
      (natDigits bld ++ '.' :: (natDigits pt ++ (" Safari/537.36").data)) = false :=
    containsSub_append_false _ _ '.'
      (containsSub_digit_run_false hh0 natDigits_digits) rfl hdot c3
  have c5 : containsSub (h0 :: tl)
      ('.' :: (natDigits bld ++ '.' :: (natDigits pt ++ (" Safari/537.36").data))) = false :=
    containsSub_append_false ['.'] _ db (containsSub_single_false hdot)
      (by rw [hdb]; rfl) (digit_not_mem hdb_dig hdig) c4
  have c6 : containsSub (h0 :: tl)
      ('0' :: '.' :: (natDigits bld ++ '.' :: (natDigits pt ++ (" Safari/537.36").data))) = false :=
    containsSub_append_false ['0'] _ '.'
      (containsSub_single_false (digit_not_mem (by decide) hdig)) rfl hdot c5
  have c7 : containsSub (h0 :: tl)
      ('.' :: '0' :: '.' :: (natDigits bld ++ '.' :: (natDigits pt ++ (" Safari/537.36").data))) = false :=
    containsSub_append_false ['.'] _ '0' (containsSub_single_false hdot) rfl
      (digit_not_mem (by decide) hdig) c6
  have c8 : containsSub (h0 :: tl)
      (natDigits mj ++ '.' :: '0' :: '.' ::
        (natDigits bld ++ '.' :: (natDigits pt ++ (" Safari/537.36").data))) = false :=
    containsSub_append_false _ _ '.'
      (containsSub_digit_run_false hh0 natDigits_digits) rfl hdot c7
  have hassoc : verData mj bld pt ++ (" Safari/537.36").data =
      natDigits mj ++ '.' :: '0' :: '.' ::
        (natDigits bld ++ '.' :: (natDigits pt ++ (" Safari/537.36").data)) := by
    simp [verData, List.append_assoc]
  rw [hassoc]
  exact containsSub_append_false _ _ dm hP (by rw [hdm]; rfl)
    (digit_not_mem hdm_dig hdig) c8

/-! ### The `Math.random()` model

`Gen α` is a computation that reads successive values of a rational stream
`s : ℕ → ℚ` (each modelling one `Math.random()` call) starting at an index
`k`, and returns its result together with the next unread index. -/

lemma readsWithin_pure {α : Type} (a : α) : ReadsWithin (gpure a) 0 := by
  intro s1 s2 k h
  exact ⟨rfl, le_refl k, le_refl k⟩

lemma readsWithin_randomFloat : ReadsWithin randomFloat 1 := by
  intro s1 s2 k h
  refine ⟨?_, by simp [randomFloat], by simp [randomFloat]⟩
  simp only [randomFloat]
  rw [h k (le_refl k) (by omega)]

lemma readsWithin_mono {α : Type} {g : Gen α} {n m : ℕ} (hg : ReadsWithin g n)
    (hnm : n ≤ m) : ReadsWithin g m := by
  intro s1 s2 k h
  obtain ⟨h1, h2, h3⟩ := hg s1 s2 k (fun i hi1 hi2 => h i hi1 (by omega))
  exact ⟨h1, h2, by omega⟩

lemma readsWithin_bind {α β : Type} {g : Gen α} {f : α → Gen β} {n m : ℕ}
    (hg : ReadsWithin g n) (hf : ∀ a, ReadsWithin (f a) m) :
    ReadsWithin (gbind g f) (n + m) := by
  intro s1 s2 k h
  obtain ⟨hg1, hg2, hg3⟩ := hg s1 s2 k (fun i hi1 hi2 => h i hi1 (by omega))
  obtain ⟨hf1, hf2, hf3⟩ := (hf (g s1 k).1) s1 s2 (g s1 k).2
    (fun i hi1 hi2 => h i (by omega) (by omega))
  constructor
  · show f (g s1 k).1 s1 (g s1 k).2 = f (g s2 k).1 s2 (g s2 k).2
    rw [← hg1]
    exact hf1
  · constructor
    · show k ≤ (f (g s1 k).1 s1 (g s1 k).2).2
      omega
    · show (f (g s1 k).1 s1 (g s1 k).2).2 ≤ k + (n + m)
      omega

lemma readsWithin_randomInt (lo hi : ℤ) : ReadsWithin (randomInt lo hi) 1 :=
  readsWithin_bind readsWithin_randomFloat (fun _ => readsWithin_pure _)

lemma readsWithin_randomChoice {α : Type} (l : List α) (dflt : α) :
    ReadsWithin (randomChoice l dflt) 1 :=
  readsWithin_bind readsWithin_randomFloat (fun _ => readsWithin_pure _)

/-! ### User-agent generation (`src/fingerprint/ua.ts`) -/

lemma readsWithin_generateChromeVersion : ReadsWithin generateChromeVersion 3 :=
  readsWithin_bind (readsWithin_randomInt 110 120) fun _ =>
    readsWithin_bind (readsWithin_randomInt 5000 6000) fun _ =>
      readsWithin_bind (readsWithin_randomInt 0 200) fun _ => readsWithin_pure _

lemma readsWithin_generateWindowsUA : ReadsWithin generateWindowsUA 5 :=
  readsWithin_bind readsWithin_generateChromeVersion fun _ =>
    readsWithin_bind (readsWithin_randomChoice _ _) fun _ =>
      readsWithin_bind (readsWithin_randomChoice _ _) fun _ => readsWithin_pure _

lemma readsWithin_generateMacUA : ReadsWithin generateMacUA 4 :=
  readsWithin_bind readsWithin_generateChromeVersion fun _ =>
    readsWithin_bind (readsWithin_randomChoice _ _) fun _ => readsWithin_pure _

lemma readsWithin_generateLinuxUA : ReadsWithin generateLinuxUA 3 :=
  readsWithin_bind readsWithin_generateChromeVersion fun _ => readsWithin_pure _

lemma readsWithin_dispatchUA (p : PlatformType) : ReadsWithin (dispatchUA p) 5 := by
  cases p with
  | windows => exact readsWithin_generateWindowsUA
  | mac => exact readsWithin_mono readsWithin_generateMacUA (by omega)
  | linux => exact readsWithin_mono readsWithin_generateLinuxUA (by omega)
  | random => exact readsWithin_generateWindowsUA

lemma readsWithin_generateUA (p : PlatformType) : ReadsWithin (generateUA p) 6 := by
  cases p with
  | random =>
    exact readsWithin_bind readsWithin_randomFloat fun r =>
      readsWithin_dispatchUA (resolveRandomPlatform r)
  | windows => exact readsWithin_mono (readsWithin_dispatchUA .windows) (by omega)
  | mac => exact readsWithin_mono (readsWithin_dispatchUA .mac) (by omega)
  | linux => exact readsWithin_mono (readsWithin_dispatchUA .linux) (by omega)

/-! ### `parseUA` and `generateClientHints` (`src/fingerprint/ua.ts`)

`parseUA` applies the regexes `Chrome\/(\d+\.\d+\.\d+\.\d+)` and
`\(([^)]+)\)` to the user-agent string; both are translated as
first-match left-to-right scans. -/

lemma readsWithin_genHexList (n : ℕ) : ReadsWithin (genHexList n) n := by
  induction n with
  | zero => exact readsWithin_pure _
  | succ m ih =>
    have : ReadsWithin (genHexList (m + 1)) (1 + m) :=
      readsWithin_bind readsWithin_randomFloat fun _ =>
        readsWithin_bind ih fun _ => readsWithin_pure _
    exact readsWithin_mono this (by omega)

lemma readsWithin_generateSeed32 : ReadsWithin generateSeed32 32 :=
  readsWithin_bind (readsWithin_genHexList 32) fun _ => readsWithin_pure _

lemma readsWithin_getDefaultCanvasConfig : ReadsWithin getDefaultCanvasConfig 32 :=
  readsWithin_bind readsWithin_generateSeed32 fun _ => readsWithin_pure _

lemma readsWithin_generateRandomGPU (p : PlatformType) :
    ReadsWithin (generateRandomGPU p) 1 := by
  unfold generateRandomGPU
  split
  · exact readsWithin_randomChoice _ _
  · split
    · exact readsWithin_randomChoice _ _
    · exact readsWithin_randomChoice _ _

lemma readsWithin_getDefaultWebGLConfig (p : PlatformType) :
    ReadsWithin (getDefaultWebGLConfig p) 33 :=
  readsWithin_bind (readsWithin_generateRandomGPU p) fun _ =>
    readsWithin_bind readsWithin_generateSeed32 fun _ => readsWithin_pure _

/-! ### Hardware bundle (`src/fingerprint/hardware.ts`) -/

lemma readsWithin_generateRandomHardware (p : PlatformType) :
    ReadsWithin (generateRandomHardware p) 7 := by
  have hres : ReadsWithin (if p = .random then
      randomChoice [PlatformType.windows, .mac, .linux] .random
    else gpure p) 1 := by
    split
    · exact readsWithin_randomChoice _ _
    · exact readsWithin_mono (readsWithin_pure _) (by omega)
  have h : ReadsWithin (generateRandomHardware p)
      (1 + (1 + (1 + (1 + (1 + (1 + (1 + 0))))))) :=
    readsWithin_bind (readsWithin_randomChoice _ _) fun _ =>
      readsWithin_bind (readsWithin_randomChoice _ _) fun _ =>
        readsWithin_bind hres fun _ =>
          readsWithin_bind (readsWithin_randomChoice _ _) fun _ =>
            readsWithin_bind (readsWithin_randomChoice _ _) fun _ =>
              readsWithin_bind (readsWithin_randomChoice _ _) fun _ =>
                readsWithin_bind (readsWithin_randomChoice _ _) fun _ =>
                  readsWithin_pure _
  exact readsWithin_mono h (by omega)

lemma readsWithin_getDefaultHardwareConfig (p : PlatformType) :
    ReadsWithin (getDefaultHardwareConfig p) 39 :=
  readsWithin_bind (readsWithin_generateRandomHardware p) fun _ =>
    readsWithin_bind readsWithin_generateSeed32 fun _ => readsWithin_pure _

/-! ### The fingerprint record built by `ProfileManager.create`
(`src/fingerprint/profile.ts`)

`create` fills the four fingerprint fields of a new profile as
`userAgent: generateUA(platform)`, `canvas: getDefaultCanvasConfig()`,
`webgl: getDefaultWebGLConfig()`, `hardware: getDefaultHardwareConfig()` —
the last two *without* the platform argument, so their parameter defaults to
`'random'`. -/

lemma readsWithin_createBundle (p : PlatformType) : ReadsWithin (createBundle p) 110 := by
  have h : ReadsWithin (createBundle p) (6 + (32 + (33 + (39 + 0)))) :=
    readsWithin_bind (readsWithin_generateUA p) fun _ =>
      readsWithin_bind readsWithin_getDefaultCanvasConfig fun _ =>
        readsWithin_bind (readsWithin_getDefaultWebGLConfig .random) fun _ =>
          readsWithin_bind (readsWithin_getDefaultHardwareConfig .random) fun _ =>
            readsWithin_pure _
  exact readsWithin_mono h (by omega)

/-! ### Profile store, `update` and `regenerateFingerprint` -/

lemma randomChoice_fst {α : Type} (l : List α) (dflt : α) (s : ℕ → ℚ) (k : ℕ) :
    (randomChoice l dflt s k).1 = l.getD (⌊s k * l.length⌋).toNat dflt := rfl

lemma randomChoice_mem {α : Type} (l : List α) (dflt : α) (s : ℕ → ℚ) (k : ℕ)
    (h0 : 0 ≤ s k) (h1 : s k < 1) (hl : l ≠ []) :
    (randomChoice l dflt s k).1 ∈ l := by
  have hlen : 0 < l.length := List.length_pos.mpr hl
  have hge : 0 ≤ ⌊s k * (l.length : ℚ)⌋ :=
    Int.floor_nonneg.mpr (mul_nonneg h0 (by positivity))
  have hltq : s k * (l.length : ℚ) < (l.length : ℚ) := by
    have := mul_lt_mul_of_pos_right h1 (show (0 : ℚ) < (l.length : ℚ) by exact_mod_cast hlen)
    simpa using this
  have hlt : ⌊s k * (l.length : ℚ)⌋ < (l.length : ℤ) :=
    Int.floor_lt.mpr (by exact_mod_cast hltq)
  have hidx : (⌊s k * (l.length : ℚ)⌋).toNat < l.length := by omega
  rw [randomChoice_fst, List.getD_eq_getElem l dflt hidx]
  exact List.getElem_mem hidx

lemma perturbChannel_le (noiseScale r : ℚ) (v : ℕ) :
    perturbChannel noiseScale r v ≤ 255 := by
  unfold perturbChannel
  rw [Int.toNat_le]
  exact max_le (by norm_num) (le_trans (min_le_left _ _) (by norm_num))

lemma addNoiseFrom_length (noiseScale : ℚ) (rand : ℕ → ℚ) :
    ∀ n data, List.length data ≤ n → ∀ k,
      (addNoiseFrom noiseScale rand k data).length = data.length := by
  intro n
  induction n with
  | zero =>
    intro data h k
    have : data = [] := List.eq_nil_of_length_eq_zero (by omega)
    subst this
    rfl
  | succ m ih =>
    intro data h k
    rcases data with _ | ⟨r, _ | ⟨g, _ | ⟨b, _ | ⟨a, rest⟩⟩⟩⟩
    · rfl
    · rfl
    · rfl
    · rfl
    · have hrest : rest.length ≤ m := by
        simp only [List.length_cons] at h
        omega
      simp [addNoiseFrom, ih rest hrest]

lemma addNoiseFrom_alpha (noiseScale : ℚ) (rand : ℕ → ℚ) :
    ∀ n data, List.length data ≤ n → ∀ k i, i % 4 = 3 →
      (addNoiseFrom noiseScale rand k data).get? i = data.get? i := by
  intro n
  induction n with
  | zero =>
    intro data h k i hi
    have : data = [] := List.eq_nil_of_length_eq_zero (by omega)
    subst this
    rfl
  | succ m ih =>
    intro data h k i hi
    rcases data with _ | ⟨r, _ | ⟨g, _ | ⟨b, _ | ⟨a, rest⟩⟩⟩⟩
    · rfl
    · have h0 : i ≠ 0 := by omega
      rcases i with _ | i
      · omega
      · rfl
    · have h0 : i ≠ 0 ∧ i ≠ 1 := by omega
      rcases i with _ | _ | i
      · omega
      · omega
      · rfl
    · have h0 : i ≠ 0 ∧ i ≠ 1 ∧ i ≠ 2 := by omega
      rcases i with _ | _ | _ | i
      · omega
      · omega
      · omega
      · rfl
    · rcases i with _ | _ | _ | _ | i
      · omega
      · omega
      · omega
      · rfl
      · have hrest : rest.length ≤ m := by
          simp only [List.length_cons] at h
          omega
        have hmod : i % 4 = 3 := by omega
        simpa [addNoiseFrom] using ih rest hrest (k + 3) i hmod

lemma addNoiseFrom_le (noiseScale : ℚ) (rand : ℕ → ℚ) :
    ∀ n data, List.length data ≤ n → ∀ k i v,
      (addNoiseFrom noiseScale rand k data).get? i = some v → i % 4 ≠ 3 → v ≤ 255 := by
  intro n
  induction n with
  | zero =>
    intro data h k i v hv hi
    have : data = [] := List.eq_nil_of_length_eq_zero (by omega)
    subst this
    simp [addNoiseFrom] at hv
  | succ m ih =>
    intro data h k i v hv hi
    rcases data with _ | ⟨r, _ | ⟨g, _ | ⟨b, _ | ⟨a, rest⟩⟩⟩⟩
    · simp [addNoiseFrom] at hv
    · rcases i with _ | i
      · simp only [addNoiseFrom, List.get?] at hv
        injection hv with hv
        exact hv ▸ perturbChannel_le _ _ _
      · simp [addNoiseFrom] at hv
    · rcases i with _ | _ | i
      · simp only [addNoiseFrom, List.get?] at hv
        injection hv with hv
        exact hv ▸ perturbChannel_le _ _ _
      · simp only [addNoiseFrom, List.get?] at hv
        injection hv with hv
        exact hv ▸ perturbChannel_le _ _ _
      · simp [addNoiseFrom] at hv
    · rcases i with _ | _ | _ | i
      · simp only [addNoiseFrom, List.get?] at hv
        injection hv with hv
        exact hv ▸ perturbChannel_le _ _ _
      · simp only [addNoiseFrom, List.get?] at hv
        injection hv with hv
        exact hv ▸ perturbChannel_le _ _ _
      · simp only [addNoiseFrom, List.get?] at hv
        injection hv with hv
        exact hv ▸ perturbChannel_le _ _ _
      · simp [addNoiseFrom] at hv
    · rcases i with _ | _ | _ | _ | i
      · simp only [addNoiseFrom, List.get?] at hv
        injection hv with hv
        exact hv ▸ perturbChannel_le _ _ _
      · simp only [addNoiseFrom, List.get?] at hv
        injection hv with hv
        exact hv ▸ perturbChannel_le _ _ _
      · simp only [addNoiseFrom, List.get?] at hv
        injection hv with hv
        exact hv ▸ perturbChannel_le _ _ _
      · omega
      · have hrest : rest.length ≤ m := by
          simp only [List.length_cons] at h
          omega
        have hmod : i % 4 ≠ 3 := by omega
        refine ih rest hrest (k + 3) i v ?_ hmod
        simpa [addNoiseFrom] using hv

/-! ### Claim theorems (first group) -/

/-- Claim C3: with the canvas override installed, exporting twice from an
unmodified canvas returns two byte-identical noised outputs, and after each
export the canvas pixel buffer equals its pre-export state. -/
theorem canvas_export_roundtrip (origToDataURL : List ℕ → String)
    (prng : String → ℕ → ℚ) (config : CanvasNoiseConfig) (canvas : List ℕ) :
    (toDataURLOverride origToDataURL prng config canvas).1 =
      (toDataURLOverride origToDataURL prng config
        (toDataURLOverride origToDataURL prng config canvas).2).1 ∧
    (toDataURLOverride origToDataURL prng config canvas).2 = canvas ∧
    (toDataURLOverride origToDataURL prng config
      (toDataURLOverride origToDataURL prng config canvas).2).2 = canvas := by
  by_cases h : config.enabled = false <;>
    simp [toDataURLOverride, h]

/-- Claim C5: installing any of the three override payloads a second time
into the same document is a no-op thanks to the installation marker. -/
theorem double_installation_noop (c : CanvasNoiseConfig) (w : WebGLConfig)
    (hw : HardwareConfig) (st : DocState) :
    installCanvasPayload c (installCanvasPayload c st) = installCanvasPayload c st ∧
    installWebGLPayload w (installWebGLPayload w st) = installWebGLPayload w st ∧
    installHardwarePayload hw (installHardwarePayload hw st) = installHardwarePayload hw st := by
  refine ⟨?_, ?_, ?_⟩
  · by_cases hm : st.canvasNoiseApplied <;> simp [installCanvasPayload, hm]
  · by_cases hm : st.webglSpoofApplied
    · simp [installWebGLPayload, hm]
    · by_cases he : w.enabled = false <;> simp [installWebGLPayload, hm, he]
  · by_cases hm : st.hardwareSpoofApplied
    · simp [installHardwarePayload, hm]
    · by_cases he : hw.enabled = false <;> simp [installHardwarePayload, hm, he]

/-- Claim C6: with the weights `[0.7, 0.2, 0.1]`, one uniform draw
`r ∈ [0,1)` resolves the unspecified platform to windows when `r < 0.7`,
mac when `0.7 ≤ r < 0.9`, linux when `0.9 ≤ r < 1`; `generateUA('random')`
continues with the platform so resolved. -/
theorem weighted_platform_selection (r : ℚ) (h0 : 0 ≤ r) (h1 : r < 1) :
    (r < 7/10 → resolveRandomPlatform r = .windows) ∧
    (7/10 ≤ r → r < 9/10 → resolveRandomPlatform r = .mac) ∧
    (9/10 ≤ r → resolveRandomPlatform r = .linux) ∧
    (∀ s k, s k = r →
      generateUA .random s k = generateUA (resolveRandomPlatform r) s (k + 1)) := by
  have hsum2 : (7 : ℚ)/10 + 2/10 = 9/10 := by norm_num
  have hsum3 : (7 : ℚ)/10 + 2/10 + 1/10 = 1 := by norm_num
  refine ⟨?_, ?_, ?_, ?_⟩
  · intro h
    simp [resolveRandomPlatform, h]
  · intro ha hb
    rw [resolveRandomPlatform, if_neg (not_lt.mpr ha), hsum2, if_pos hb]
  · intro ha
    have hb : ¬ r < 7/10 := not_lt.mpr (le_trans (by norm_num) ha)
    have hc : ¬ r < 7/10 + 2/10 := by rw [hsum2]; exact not_lt.mpr ha
    rw [resolveRandomPlatform, if_neg hb, if_neg hc, hsum3, if_pos h1]
  · intro s k hsk
    have hstep : generateUA .random s k = dispatchUA (resolveRandomPlatform (s k)) s (k + 1) :=
      rfl
    rw [hstep, hsk]
    have hnr : resolveRandomPlatform r ≠ .random := by
      unfold resolveRandomPlatform
      split_ifs with hi1 hi2 hi3
      · simp
      · simp
      · simp
      · rw [hsum3] at hi3
        exact absurd h1 hi3
    cases hcase : resolveRandomPlatform r with
    | windows => rfl
    | mac => rfl
    | linux => rfl
    | random => exact absurd hcase hnr

/-- Witness for C6 at the concrete draw `r = 4/5`. -/
theorem weighted_platform_selection_witness :
    ((0 : ℚ) ≤ 4/5 ∧ (4 : ℚ)/5 < 1 ∧ (7 : ℚ)/10 ≤ 4/5 ∧ (4 : ℚ)/5 < 9/10) ∧
    resolveRandomPlatform (4/5) = .mac :=
  ⟨⟨by norm_num, by norm_num, by norm_num, by norm_num⟩,
   (weighted_platform_selection (4/5) (by norm_num) (by norm_num)).2.1
     (by norm_num) (by norm_num)⟩

/-- Claim C7: `generateRandomGPU` always returns an entry of the static
`GPU_CONFIGS` table for every platform choice; the table and both platform
filters over it are non-empty, so selection never falls back to the
undefined element. -/
theorem gpu_generator_total (p : PlatformType) (s : ℕ → ℚ) (k : ℕ)
    (h0 : 0 ≤ s k) (h1 : s k < 1) :
    (generateRandomGPU p s k).1 ∈ GPU_CONFIGS ∧
    GPU_CONFIGS ≠ [] ∧
    GPU_CONFIGS.filter (fun g => containsSub (("(Apple)").data) g.vendor.data) ≠ [] ∧
    GPU_CONFIGS.filter (fun g => !containsSub (("(Apple)").data) g.vendor.data) ≠ [] := by
  refine ⟨?_, by decide, by decide, by decide⟩
  cases p with
  | mac =>
    have hmem := randomChoice_mem
      (if (GPU_CONFIGS.filter (fun g => containsSub (("(Apple)").data) g.vendor.data)).length = 0
       then GPU_CONFIGS
       else GPU_CONFIGS.filter (fun g => containsSub (("(Apple)").data) g.vendor.data))
      gpuFallback s k h0 h1 (by decide)
    have hx : (generateRandomGPU .mac s k).1 ∈
        (if (GPU_CONFIGS.filter (fun g => containsSub (("(Apple)").data) g.vendor.data)).length = 0
         then GPU_CONFIGS
         else GPU_CONFIGS.filter (fun g => containsSub (("(Apple)").data) g.vendor.data)) := hmem
    split at hx
    · exact hx
    · exact (List.mem_filter.mp hx).1
  | windows =>
    have hmem := randomChoice_mem
      (if (GPU_CONFIGS.filter (fun g => !containsSub (("(Apple)").data) g.vendor.data)).length = 0
       then GPU_CONFIGS
       else GPU_CONFIGS.filter (fun g => !containsSub (("(Apple)").data) g.vendor.data))
      gpuFallback s k h0 h1 (by decide)
    have hx : (generateRandomGPU .windows s k).1 ∈
        (if (GPU_CONFIGS.filter (fun g => !containsSub (("(Apple)").data) g.vendor.data)).length = 0
         then GPU_CONFIGS
         else GPU_CONFIGS.filter (fun g => !containsSub (("(Apple)").data) g.vendor.data)) := hmem
    split at hx
    · exact hx
    · exact (List.mem_filter.mp hx).1
  | linux =>
    have hmem := randomChoice_mem
      (if (GPU_CONFIGS.filter (fun g => !containsSub (("(Apple)").data) g.vendor.data)).length = 0
       then GPU_CONFIGS
       else GPU_CONFIGS.filter (fun g => !containsSub (("(Apple)").data) g.vendor.data))
      gpuFallback s k h0 h1 (by decide)
    have hx : (generateRandomGPU .linux s k).1 ∈
        (if (GPU_CONFIGS.filter (fun g => !containsSub (("(Apple)").data) g.vendor.data)).length = 0
         then GPU_CONFIGS
         else GPU_CONFIGS.filter (fun g => !containsSub (("(Apple)").data) g.vendor.data)) := hmem
    split at hx
    · exact hx
    · exact (List.mem_filter.mp hx).1
  | random =>
    exact randomChoice_mem GPU_CONFIGS gpuFallback s k h0 h1 (by decide)

/-- Witness for C7 at platform mac and the all-zero stream. -/
theorem gpu_generator_total_witness :
    ((0 : ℚ) ≤ (fun _ : ℕ => (0 : ℚ)) 0 ∧ (fun _ : ℕ => (0 : ℚ)) 0 < 1) ∧
    (generateRandomGPU .mac (fun _ => (0 : ℚ)) 0).1 ∈ GPU_CONFIGS :=
  ⟨⟨by norm_num, by norm_num⟩,
   (gpu_generator_total .mac (fun _ => (0 : ℚ)) 0 (by norm_num) (by norm_num)).1⟩

/-- Claim C8: the permissions-query override resolves `notifications` to a
denied status and forwards every other permission name to the saved original
implementation. -/
theorem permissions_query_override_behavior (originalQuery : String → PermissionStatusM) :
    permissionsQueryOverride originalQuery "notifications" = { state := "denied" } ∧
    ∀ name : String, name ≠ "notifications" →
      permissionsQueryOverride originalQuery name = originalQuery name := by
  constructor
  · simp [permissionsQueryOverride]
  · intro name hn
    simp [permissionsQueryOverride, hn]

/-- Witness for C8 with a concrete original implementation and the
`geolocation` permission. -/
theorem permissions_query_override_behavior_witness :
    ("geolocation" : String) ≠ "notifications" ∧
    permissionsQueryOverride (fun _ => { state := "granted" }) "notifications" =
      { state := "denied" } ∧
    permissionsQueryOverride (fun _ => { state := "granted" }) "geolocation" =
      { state := "granted" } :=
  ⟨by decide,
   (permissions_query_override_behavior (fun _ => { state := "granted" })).1,
   (permissions_query_override_behavior (fun _ => { state := "granted" })).2
     "geolocation" (by decide)⟩

/-- Claim C10: `addNoise` preserves the buffer length, leaves every alpha
byte (index `≡ 3 mod 4`) unchanged, and clamps every perturbed colour
channel into `[0, 255]`, for every buffer and every noise configuration. -/
theorem addNoise_channel_bounds (noiseScale : ℚ) (rand : ℕ → ℚ) (data : List ℕ) :
    (addNoise noiseScale rand data).length = data.length ∧
    (∀ i, i % 4 = 3 → (addNoise noiseScale rand data).get? i = data.get? i) ∧
    (∀ i v, (addNoise noiseScale rand data).get? i = some v → i % 4 ≠ 3 →
      0 ≤ v ∧ v ≤ 255) :=
  ⟨addNoiseFrom_length noiseScale rand data.length data le_rfl 0,
   fun i hi => addNoiseFrom_alpha noiseScale rand data.length data le_rfl 0 i hi,
   fun i v hv hi =>
     ⟨Nat.zero_le v, addNoiseFrom_le noiseScale rand data.length data le_rfl 0 i v hv hi⟩⟩

/-- Witness for C10 on a concrete four-byte pixel: the alpha byte survives
and an overflowing red channel is clamped to 255. -/
theorem addNoise_channel_bounds_witness :
    ((3 : ℕ) % 4 = 3 ∧
      (addNoise (3/100) (fun _ => 0) [300, 20, 30, 40]).get? 3 = some 40) ∧
    ((addNoise (3/100) (fun _ => 0) [300, 20, 30, 40]).get? 0 = some 255 ∧
      (0 : ℕ) % 4 ≠ 3 ∧ 0 ≤ 255 ∧ 255 ≤ 255) := by
  have h2 := (addNoise_channel_bounds (3/100) (fun _ => 0) [300, 20, 30, 40]).2.1 3 (by decide)
  have hp : perturbChannel (3/100) 0 300 = 255 := by
    unfold perturbChannel
    norm_num
    rfl
  have hv : (addNoise (3/100) (fun _ => 0) [300, 20, 30, 40]).get? 0 = some 255 := by
    show some (perturbChannel (3/100) 0 300) = some 255
    rw [hp]
  have h3 := (addNoise_channel_bounds (3/100) (fun _ => 0) [300, 20, 30, 40]).2.2 0 255 hv
    (by decide)
  exact ⟨⟨by decide, by rw [h2]; rfl⟩, hv, by decide, h3⟩
/-! ### Concrete draw streams for evaluation -/

lemma randomInt_zs (lo hi : ℤ) (k : ℕ) : randomInt lo hi zs k = (lo, k + 1) := by
  show (⌊zs k * ((hi : ℚ) - (lo : ℚ) + 1)⌋ + lo, k + 1) = (lo, k + 1)
  norm_num [zs]

lemma randomChoice_zs {α : Type} (l : List α) (d : α) (k : ℕ) :
    randomChoice l d zs k = (l.getD 0 d, k + 1) := by
  show (l.getD (⌊zs k * (l.length : ℚ)⌋).toNat d, k + 1) = _
  norm_num [zs]

lemma generateChromeVersion_zs (k : ℕ) :
    generateChromeVersion zs k = ("110.0.5000.0", k + 3) := by
  simp only [generateChromeVersion, gbind, gpure]
  rw [randomInt_zs, randomInt_zs, randomInt_zs]
  simp only [Prod.mk.injEq]
  exact ⟨by decide, trivial⟩

lemma generateMacUA_zs (k : ℕ) :
    generateMacUA zs k =
      ("Mozilla/5.0 (Macintosh; Intel Mac OS X 10_15_7) AppleWebKit/537.36 (KHTML, like Gecko) Chrome/110.0.5000.0 Safari/537.36",
       k + 4) := by
  simp only [generateMacUA, gbind, gpure]
  rw [generateChromeVersion_zs, randomChoice_zs]
  simp only [Prod.mk.injEq]
  exact ⟨by decide, by trivial⟩

lemma generateWindowsUA_zs (k : ℕ) :
    generateWindowsUA zs k =
      ("Mozilla/5.0 (Windows NT 10.0; Win64; x64) AppleWebKit/537.36 (KHTML, like Gecko) Chrome/110.0.5000.0 Safari/537.36",
       k + 5) := by
  simp only [generateWindowsUA, gbind, gpure]
  rw [generateChromeVersion_zs, randomChoice_zs, randomChoice_zs]
  simp only [Prod.mk.injEq]
  exact ⟨by decide, by trivial⟩

lemma generateChromeVersion_hs (k : ℕ) :
    generateChromeVersion hs k = ("115.0.5500.100", k + 3) := by
  have h1 : ∀ j, randomInt 110 120 hs j = (115, j + 1) := fun j => by
    show (⌊hs j * ((120 : ℚ) - 110 + 1)⌋ + 110, j + 1) = _
    norm_num [hs]
  have h2 : ∀ j, randomInt 5000 6000 hs j = (5500, j + 1) := fun j => by
    show (⌊hs j * ((6000 : ℚ) - 5000 + 1)⌋ + 5000, j + 1) = _
    norm_num [hs]
  have h3 : ∀ j, randomInt 0 200 hs j = (100, j + 1) := fun j => by
    show (⌊hs j * ((200 : ℚ) - 0 + 1)⌋ + 0, j + 1) = _
    norm_num [hs]
  simp only [generateChromeVersion, gbind, gpure]
  rw [h1, h2, h3]
  simp only [Prod.mk.injEq]
  exact ⟨by decide, by trivial⟩

lemma generateWindowsUA_hs (k : ℕ) :
    generateWindowsUA hs k =
      ("Mozilla/5.0 (Windows NT 11.0; Win64; x64) AppleWebKit/537.36 (KHTML, like Gecko) Chrome/115.0.5500.100 Safari/537.36",
       k + 5) := by
  have hnt : ∀ j, randomChoice windowsVersions ("") hs j = ("11.0", j + 1) := fun j => by
    show (windowsVersions.getD (⌊hs j * ((windowsVersions.length : ℕ) : ℚ)⌋).toNat (""), j + 1) = _
    norm_num [hs, windowsVersions]
  have harch : ∀ j, randomChoice windowsArch ("") hs j = ("Win64; x64", j + 1) := fun j => by
    show (windowsArch.getD (⌊hs j * ((windowsArch.length : ℕ) : ℚ)⌋).toNat (""), j + 1) = _
    norm_num [hs, windowsArch]
  simp only [generateWindowsUA, gbind, gpure]
  rw [generateChromeVersion_hs, hnt, harch]
  simp only [Prod.mk.injEq]
  exact ⟨by decide, by trivial⟩

lemma genHexList_zs : ∀ n k, genHexList n zs k = (List.replicate n ('0'), k + n) := by
  intro n
  induction n with
  | zero => intro k; simp [genHexList, gpure]
  | succ m ih =>
    intro k
    simp only [genHexList, gbind, gpure, randomFloat]
    rw [ih]
    simp only [Prod.mk.injEq]
    constructor
    · have hz : (⌊zs k * (16 : ℚ)⌋).toNat = 0 := by norm_num [zs]
      rw [hz, List.replicate_succ]
      have hc : hexChar 0 = '0' := by decide
      rw [hc]
    · omega

lemma generateSeed32_zs (k : ℕ) :
    generateSeed32 zs k = ("00000000000000000000000000000000", k + 32) := by
  simp only [generateSeed32, gbind, gpure]
  rw [genHexList_zs]
  simp only [Prod.mk.injEq]
  exact ⟨by decide, by trivial⟩

lemma getDefaultCanvasConfig_zs (k : ℕ) :
    getDefaultCanvasConfig zs k =
      ({ enabled := true, noise := 3, seed := "00000000000000000000000000000000" }, k + 32) := by
  simp only [getDefaultCanvasConfig, generateCanvasNoiseSeed, gbind, gpure]
  rw [generateSeed32_zs]

lemma generateRandomGPU_random_zs (k : ℕ) :
    generateRandomGPU .random zs k =
      (⟨"Google Inc. (NVIDIA)", "ANGLE (NVIDIA, NVIDIA GeForce GTX 1650 Direct3D11 vs_5_0 ps_5_0, D3D11)"⟩,
       k + 1) := by
  have h : generateRandomGPU .random = randomChoice GPU_CONFIGS gpuFallback := by
    unfold generateRandomGPU
    simp
  rw [h, randomChoice_zs]
  rfl

lemma getDefaultWebGLConfig_random_zs (k : ℕ) :
    getDefaultWebGLConfig .random zs k =
      ({ enabled := true, vendor := "Google Inc. (NVIDIA)",
         renderer := "ANGLE (NVIDIA, NVIDIA GeForce GTX 1650 Direct3D11 vs_5_0 ps_5_0, D3D11)",
         seed := "00000000000000000000000000000000" }, k + 33) := by
  simp only [getDefaultWebGLConfig, generateWebGLSeed, gbind, gpure]
  rw [generateRandomGPU_random_zs, generateSeed32_zs]

lemma generateRandomHardware_random_zs (k : ℕ) :
    generateRandomHardware .random zs k =
      ({ hardwareConcurrency := 4, deviceMemory := 4, platform := "Win32",
         language := "en-US", languages := ["en-US", "en"],
         timezone := "America/New_York", screenWidth := 1920, screenHeight := 1080,
         colorDepth := 24, pixelRatio := 1 }, k + 7) := by
  simp only [generateRandomHardware, gbind, gpure, if_true]
  rw [randomChoice_zs, randomChoice_zs, randomChoice_zs, randomChoice_zs, randomChoice_zs,
    randomChoice_zs, randomChoice_zs]
  rfl

lemma getDefaultHardwareConfig_random_zs (k : ℕ) :
    getDefaultHardwareConfig .random zs k =
      ({ enabled := true, hardwareConcurrency := 4, deviceMemory := 4, platform := "Win32",
         language := "en-US", languages := ["en-US", "en"],
         timezone := "America/New_York", screenWidth := 1920, screenHeight := 1080,
         colorDepth := 24, pixelRatio := 1, seed := "00000000000000000000000000000000" },
       k + 39) := by
  simp only [getDefaultHardwareConfig, generateHardwareSeed, gbind, gpure]
  rw [generateRandomHardware_random_zs, generateSeed32_zs]

lemma createBundle_mac_zs :
    createBundle .mac zs 0 =
      ({ userAgent := "Mozilla/5.0 (Macintosh; Intel Mac OS X 10_15_7) AppleWebKit/537.36 (KHTML, like Gecko) Chrome/110.0.5000.0 Safari/537.36",
         canvas := { enabled := true, noise := 3, seed := "00000000000000000000000000000000" },
         webgl := { enabled := true, vendor := "Google Inc. (NVIDIA)",
                    renderer := "ANGLE (NVIDIA, NVIDIA GeForce GTX 1650 Direct3D11 vs_5_0 ps_5_0, D3D11)",
                    seed := "00000000000000000000000000000000" },
         hardware := { enabled := true, hardwareConcurrency := 4, deviceMemory := 4,
                       platform := "Win32", language := "en-US", languages := ["en-US", "en"],
                       timezone := "America/New_York", screenWidth := 1920,
                       screenHeight := 1080, colorDepth := 24, pixelRatio := 1,
                       seed := "00000000000000000000000000000000" } },
       108) := by
  simp only [createBundle, generateUA, dispatchUA, gbind, gpure]
  rw [generateMacUA_zs, getDefaultCanvasConfig_zs, getDefaultWebGLConfig_random_zs,
    getDefaultHardwareConfig_random_zs]

/-! ### Claim theorems: determinism (C1) and platform consistency (C2) -/

/-- Counterexample to claim C1: the generators never read a seed — each call
consumes fresh `Math.random()` draws — so two bundle generations with the
same platform choice (and the same stored seed) differ as soon as their
draws differ. -/
theorem bundle_generation_seed_counterexample :
    (createBundle .windows zs 0).1 ≠ (createBundle .windows hs 0).1 := by
  intro h
  have hua : (createBundle .windows zs 0).1.userAgent =
      (createBundle .windows hs 0).1.userAgent := congrArg FingerprintBundle.userAgent h
  have e1 : (createBundle .windows zs 0).1.userAgent = (generateWindowsUA zs 0).1 := rfl
  have e2 : (createBundle .windows hs 0).1.userAgent = (generateWindowsUA hs 0).1 := rfl
  rw [e1, e2, generateWindowsUA_zs, generateWindowsUA_hs] at hua
  exact absurd hua (by decide)

/-- Claim C1 (amended): bundle generation is a pure function of the platform
choice and the `Math.random()` draws it consumes — at most 110 stream
positions from the starting index; two generations that read equal draws on
that window return field-for-field identical attribute sets. -/
theorem bundle_generation_deterministic_in_draws (p : PlatformType) (s1 s2 : ℕ → ℚ)
    (k : ℕ) (h : ∀ i, k ≤ i → i < k + 110 → s1 i = s2 i) :
    createBundle p s1 k = createBundle p s2 k :=
  (readsWithin_createBundle p s1 s2 k h).1

/-- Witness for the amended C1: two streams that agree on the first 110
positions and differ later generate the same bundle. -/
theorem bundle_generation_deterministic_in_draws_witness :
    (∀ i, 0 ≤ i → i < 0 + 110 → zs i = (fun j => if j < 110 then (0 : ℚ) else 1) i) ∧
    createBundle .mac zs 0 =
      createBundle .mac (fun j => if j < 110 then (0 : ℚ) else 1) 0 := by
  have hagree : ∀ i, 0 ≤ i → i < 0 + 110 → zs i = (fun j => if j < 110 then (0 : ℚ) else 1) i := by
    intro i _ hi
    have : i < 110 := by omega
    simp [zs, this]
  exact ⟨hagree,
    bundle_generation_deterministic_in_draws .mac zs (fun j => if j < 110 then (0 : ℚ) else 1)
      0 hagree⟩

/-- Claim C2 is violated by the code (code bug): `ProfileManager.create`
calls `getDefaultWebGLConfig()` and `getDefaultHardwareConfig()` without the
platform argument, so on the all-zero draw stream a profile created with
platform choice mac carries a Macintosh user-agent but hardware platform
`"Win32"` and an NVIDIA (non-Apple) WebGL vendor. -/
theorem platform_consistency_violation_mac :
    (createBundle .mac zs 0).1.hardware.platform = "Win32" ∧
    (createBundle .mac zs 0).1.webgl.vendor = "Google Inc. (NVIDIA)" ∧
    containsSub (("Macintosh").data) (createBundle .mac zs 0).1.userAgent.data = true ∧
    containsSub (("(Apple)").data) (createBundle .mac zs 0).1.webgl.vendor.data = false := by
  rw [createBundle_mac_zs]
  exact ⟨rfl, rfl, by decide, by decide⟩

/-! ### Claim C9: regeneration -/

/-- Claim C9: for an existing profile, `regenerateFingerprint` replaces all
four attribute sets with freshly generated ones (never a subset) and writes
the updated config back, while `id`, `name`, `platform`, `createdAt` and
`proxy` are copied unchanged from the stored config and only `lastUsed` is
additionally set to the current time; for a missing profile id it returns
`null` and writes nothing. -/
theorem regenerate_fingerprint_full_replacement (store : ProfileStore)
    (profileId now : String) (s : ℕ → ℚ) (k : ℕ) :
    (∀ config, getProfile store profileId = some config →
      (let r1 := generateUA config.platform s k
       let r2 := getDefaultCanvasConfig s r1.2
       let r3 := getDefaultWebGLConfig .random s r2.2
       let r4 := getDefaultHardwareConfig .random s r3.2
       let u : ProfileConfig :=
         { config with userAgent := r1.1, canvas := r2.1, webgl := r3.1,
                       hardware := r4.1, lastUsed := now }
       regenerateFingerprint store profileId now s k =
         ((some u, saveProfile store profileId u), r4.2) ∧
       u.id = config.id ∧ u.name = config.name ∧ u.platform = config.platform ∧
       u.createdAt = config.createdAt ∧ u.proxy = config.proxy ∧ u.lastUsed = now ∧
       u.userAgent = r1.1 ∧ u.canvas = r2.1 ∧ u.webgl = r3.1 ∧ u.hardware = r4.1)) ∧
    (getProfile store profileId = none →
      regenerateFingerprint store profileId now s k = ((none, store), k)) := by
  constructor
  · intro config hcfg
    refine ⟨?_, rfl, rfl, rfl, rfl, rfl, rfl, rfl, rfl, rfl, rfl⟩
    unfold regenerateFingerprint updateProfile
    rw [hcfg]
  · intro hnone
    unfold regenerateFingerprint
    rw [hnone]

/-- Witness for C9: a store holding one concrete profile regenerated on the
all-zero stream, plus a missing profile id. -/
theorem regenerate_fingerprint_full_replacement_witness :
    (getProfile [("p1", exampleProfile)] ("p1") = some exampleProfile ∧
      (let r1 := generateUA exampleProfile.platform zs 0
       let r2 := getDefaultCanvasConfig zs r1.2
       let r3 := getDefaultWebGLConfig .random zs r2.2
       let r4 := getDefaultHardwareConfig .random zs r3.2
       let u : ProfileConfig :=
         { exampleProfile with userAgent := r1.1, canvas := r2.1, webgl := r3.1,
                               hardware := r4.1, lastUsed := "2024-02-02" }
       regenerateFingerprint [("p1", exampleProfile)] ("p1") ("2024-02-02") zs 0 =
         ((some u, saveProfile [("p1", exampleProfile)] ("p1") u), r4.2) ∧
       u.id = exampleProfile.id ∧ u.name = exampleProfile.name ∧
       u.platform = exampleProfile.platform ∧ u.createdAt = exampleProfile.createdAt ∧
       u.proxy = exampleProfile.proxy ∧ u.lastUsed = "2024-02-02" ∧
       u.userAgent = r1.1 ∧ u.canvas = r2.1 ∧ u.webgl = r3.1 ∧ u.hardware = r4.1)) ∧
    (getProfile [("p1", exampleProfile)] ("missing") = none ∧
      regenerateFingerprint [("p1", exampleProfile)] ("missing") ("2024-02-02") zs 0 =
        ((none, [("p1", exampleProfile)]), 0)) := by
  have hsome : getProfile [("p1", exampleProfile)] ("p1") = some exampleProfile := rfl
  have hnone : getProfile [("p1", exampleProfile)] ("missing") = none := rfl
  exact ⟨⟨hsome,
          (regenerate_fingerprint_full_replacement [("p1", exampleProfile)] ("p1")
            ("2024-02-02") zs 0).1 exampleProfile hsome⟩,
         hnone,
         (regenerate_fingerprint_full_replacement [("p1", exampleProfile)] ("missing")
           ("2024-02-02") zs 0).2 hnone⟩

/-! ### Claim C4: client hints derived from the generated user-agent -/

lemma intRepr_nonneg {z : ℤ} (h : 0 ≤ z) : intRepr z = natRepr z.toNat := by
  unfold intRepr
  rw [if_neg (not_lt.mpr h)]

lemma takeWhile_all_append (p : Char → Bool) (a : List Char) (d : Char) (b : List Char)
    (ha : ∀ c ∈ a, p c = true) (hd : p d = false) :
    (a ++ d :: b).takeWhile p = a := by
  induction a with
  | nil => simp [List.takeWhile_cons, hd]
  | cons x xs ih =>
    have hx : p x = true := ha x (List.mem_cons_self x xs)
    simp only [List.cons_append, List.takeWhile_cons, hx, if_true]
    rw [ih (fun c hc => ha c (List.mem_cons_of_mem x hc))]

lemma dropWhile_all_append (p : Char → Bool) (a : List Char) (d : Char) (b : List Char)
    (ha : ∀ c ∈ a, p c = true) (hd : p d = false) :
    (a ++ d :: b).dropWhile p = d :: b := by
  induction a with
  | nil => simp [List.dropWhile_cons, hd]
  | cons x xs ih =>
    have hx : p x = true := ha x (List.mem_cons_self x xs)
    simp only [List.cons_append, List.dropWhile_cons, hx, if_true]
    exact ih (fun c hc => ha c (List.mem_cons_of_mem x hc))

lemma takeDigits_run (run : List Char) (d : Char) (b : List Char)
    (hrun : ∀ c ∈ run, c.isDigit = true) (hd : d.isDigit = false) :
    takeDigits (run ++ d :: b) = run :=
  takeWhile_all_append _ run d b hrun hd

lemma dropDigits_run (run : List Char) (d : Char) (b : List Char)
    (hrun : ∀ c ∈ run, c.isDigit = true) (hd : d.isDigit = false) :
    dropDigits (run ++ d :: b) = d :: b :=
  dropWhile_all_append _ run d b hrun hd

/-- `parseVerAt` succeeds on the version produced by `generateChromeVersion`
followed by any non-digit character. -/
lemma parseVerAt_eq (mj bld pt : ℕ) (c : Char) (rest : List Char)
    (hc : c.isDigit = false) :
    parseVerAt (verData mj bld pt ++ c :: rest) = some (verData mj bld pt) := by
  have hassoc : verData mj bld pt ++ c :: rest =
      natDigits mj ++ '.' :: '0' :: '.' ::
        (natDigits bld ++ '.' :: (natDigits pt ++ c :: rest)) := by
    simp [verData, List.append_assoc]
  rw [hassoc]
  unfold parseVerAt
  rw [takeDigits_run (natDigits mj) '.' _ natDigits_digits (by decide)]
  rw [dropDigits_run (natDigits mj) '.' _ natDigits_digits (by decide)]
  simp only [List.isEmpty_iff, natDigits_ne_nil, if_neg, if_false]
  have h0 : takeDigits ('0' :: '.' :: (natDigits bld ++ '.' :: (natDigits pt ++ c :: rest))) =
      ['0'] := by
    have : ('0' : Char) :: '.' :: (natDigits bld ++ '.' :: (natDigits pt ++ c :: rest)) =
        ['0'] ++ '.' :: (natDigits bld ++ '.' :: (natDigits pt ++ c :: rest)) := rfl
    rw [this, takeDigits_run ['0'] '.' _ (by decide) (by decide)]
  have h0d : dropDigits ('0' :: '.' :: (natDigits bld ++ '.' :: (natDigits pt ++ c :: rest))) =
      '.' :: (natDigits bld ++ '.' :: (natDigits pt ++ c :: rest)) := by
    have : ('0' : Char) :: '.' :: (natDigits bld ++ '.' :: (natDigits pt ++ c :: rest)) =
        ['0'] ++ '.' :: (natDigits bld ++ '.' :: (natDigits pt ++ c :: rest)) := rfl
    rw [this, dropDigits_run ['0'] '.' _ (by decide) (by decide)]
  rw [h0, h0d]
  simp only [List.isEmpty_cons, if_false]
  rw [takeDigits_run (natDigits bld) '.' _ natDigits_digits (by decide)]
  rw [dropDigits_run (natDigits bld) '.' _ natDigits_digits (by decide)]
  simp only [List.isEmpty_iff, natDigits_ne_nil, if_neg, if_false]
  rw [takeDigits_run (natDigits pt) c _ natDigits_digits hc]
  simp only [List.isEmpty_iff, natDigits_ne_nil, if_neg, if_false]
  simp [verData, List.append_assoc]

lemma findChrome_skip (a b : List Char) (ha : ∀ c ∈ a, c ≠ 'C') :
    findChrome (a ++ b) = findChrome b := by
  induction a with
  | nil => rfl
  | cons x xs ih =>
    have hx : x ≠ 'C' := ha x (List.mem_cons_self x xs)
    have hpre : isPre chromeToken (x :: List.append xs b) = false := by
      show (if 'C' = x then isPre ['h', 'r', 'o', 'm', 'e', '/'] (List.append xs b) else false) =
        false
      rw [if_neg (fun h => hx h.symm)]
    simp only [List.cons_append, findChrome, hpre]
    exact ih (fun c hc => ha c (List.mem_cons_of_mem x hc))

lemma findChrome_at (mj bld pt : ℕ) (c : Char) (rest : List Char)
    (hc : c.isDigit = false) :
    findChrome (chromeToken ++ (verData mj bld pt ++ c :: rest)) =
      some (verData mj bld pt) := by
  have h1 : isPre chromeToken
      ('C' :: ('h' :: 'r' :: 'o' :: 'm' :: 'e' :: '/' :: (verData mj bld pt ++ c :: rest))) =
      true := isPre_self_append chromeToken (verData mj bld pt ++ c :: rest)
  show findChrome
      ('C' :: ('h' :: 'r' :: 'o' :: 'm' :: 'e' :: '/' :: (verData mj bld pt ++ c :: rest))) = _
  simp only [findChrome, h1, if_true]
  have hdrop :
      (('C' :: ('h' :: 'r' :: 'o' :: 'm' :: 'e' :: '/' :: (verData mj bld pt ++ c :: rest)))).drop 7 =
      verData mj bld pt ++ c :: rest := rfl
  rw [hdrop, parseVerAt_eq mj bld pt c rest hc]

lemma findParen_skip (a b : List Char) (ha : ∀ c ∈ a, c ≠ '(') :
    findParen (a ++ b) = findParen b := by
  induction a with
  | nil => rfl
  | cons x xs ih =>
    have hx : x ≠ '(' := ha x (List.mem_cons_self x xs)
    simp only [List.cons_append, findParen, hx, if_false]
    exact ih (fun c hc => ha c (List.mem_cons_of_mem x hc))

lemma findParen_at (inner tail : List Char) (h1 : inner ≠ [])
    (h2 : ∀ c ∈ inner, c ≠ ')') :
    findParen ('(' :: (inner ++ ')' :: tail)) = some inner := by
  have ha : ∀ c ∈ inner, (decide (c ≠ ')')) = true := fun c hc => by
    simp [h2 c hc]
  have hd : (decide ((')' : Char) ≠ ')')) = false := by decide
  simp only [findParen, if_pos rfl]
  rw [takeWhile_all_append _ inner ')' tail ha hd]
  rw [dropWhile_all_append _ inner ')' tail ha hd]
  have hne : inner.isEmpty = false := by
    cases inner with
    | nil => exact absurd rfl h1
    | cons c cs => rfl
  simp only [hne, Bool.false_eq_true, if_false]
  exact if_pos trivial

lemma natRepr_data (n : ℕ) : (natRepr n).data = natDigits n := rfl

lemma generateClientHints_eq (ua : String) (O v : List Char)
    (hchrome : findChrome ua.data = some v) (hparen : findParen ua.data = some O) :
    generateClientHints ua =
      [("sec-ch-ua", brandHeader ⟨v.takeWhile (fun c => c ≠ '.')⟩),
       ("sec-ch-ua-mobile", "?0"),
       ("sec-ch-ua-platform",
         if containsSub (("Windows").data) ua.data then "\"Windows\""
         else if containsSub (("Mac").data) ua.data then "\"macOS\"" else "\"Linux\"")] := by
  unfold generateClientHints parseUA
  rw [hchrome, hparen]

lemma takeWhile_verData (mj bld pt : ℕ) :
    (verData mj bld pt).takeWhile (fun c => c ≠ '.') = natDigits mj := by
  unfold verData
  refine takeWhile_all_append _ (natDigits mj) '.' _ ?_ (by decide)
  intro c hc
  have hd := natDigits_digits c hc
  simp only [decide_eq_true_eq]
  exact isDigit_ne_of_not_isDigit hd (by decide)

/-- Structure of every generated user-agent string: a paren-free head, one
parenthesised OS token, a middle region, then `Chrome/<version> Safari/…`;
under these shape conditions the client hints carry the decimal major token
and `Chrome/<major>.` occurs in the string. -/
lemma clientHints_shape (A O M : List Char) (mj bld pt : ℕ) (ua : String)
    (hdata : ua.data =
      A ++ '(' :: (O ++ ')' :: (M ++ (chromeToken ++
        (verData mj bld pt ++ ' ' :: ("Safari/537.36").data)))))
    (hA : ∀ c ∈ A, c ≠ '(')
    (hOne : O ≠ []) (hOp : ∀ c ∈ O, c ≠ ')')
    (hC : ∀ c ∈ A ++ '(' :: (O ++ ')' :: M), c ≠ 'C') :
    generateClientHints ua =
      [("sec-ch-ua", brandHeader (natRepr mj)), ("sec-ch-ua-mobile", "?0"),
       ("sec-ch-ua-platform",
         if containsSub (("Windows").data) ua.data then "\"Windows\""
         else if containsSub (("Mac").data) ua.data then "\"macOS\"" else "\"Linux\"")] ∧
    containsSub (("Chrome/" ++ natRepr mj ++ ".").data) ua.data = true := by
  have hre : A ++ '(' :: (O ++ ')' :: (M ++ (chromeToken ++
        (verData mj bld pt ++ ' ' :: ("Safari/537.36").data)))) =
      (A ++ '(' :: (O ++ ')' :: M)) ++ (chromeToken ++
        (verData mj bld pt ++ ' ' :: ("Safari/537.36").data)) := by
    simp [List.append_assoc]
  have hchrome : findChrome ua.data = some (verData mj bld pt) := by
    rw [hdata, hre, findChrome_skip _ _ hC,
      findChrome_at mj bld pt ' ' (("Safari/537.36").data) (by decide)]
  have hparen : findParen ua.data = some O := by
    rw [hdata, findParen_skip A _ hA, findParen_at O _ hOne hOp]
  constructor
  · rw [generateClientHints_eq ua O (verData mj bld pt) hchrome hparen,
      takeWhile_verData mj bld pt]
    rfl
  · have hneedle : (("Chrome/" ++ natRepr mj ++ ".").data) =
        chromeToken ++ (natDigits mj ++ ['.']) := by
      simp [String.data_append, natRepr_data]
      rfl
    have htail : chromeToken ++ (verData mj bld pt ++ ' ' :: ("Safari/537.36").data) =
        (chromeToken ++ (natDigits mj ++ ['.'])) ++
          ('0' :: '.' :: (natDigits bld ++ '.' :: natDigits pt) ++
            ' ' :: ("Safari/537.36").data) := by
      simp [verData, List.append_assoc]
    have hinfix : containsSub (("Chrome/" ++ natRepr mj ++ ".").data)
        (chromeToken ++ (verData mj bld pt ++ ' ' :: ("Safari/537.36").data)) = true := by
      rw [hneedle, htail]
      exact containsSub_of_isPre (isPre_self_append _ _)
    rw [hdata, hre]
    exact containsSub_append_right _ hinfix

lemma hS4data : (" Safari/537.36").data = ' ' :: ("Safari/537.36").data := by decide

lemma clientHints_windows10 (vs : String) (mj bld pt : ℕ)
    (hvs : vs.data = verData mj bld pt) :
    generateClientHints ("Mozilla/5.0 (Windows NT " ++ "10.0" ++ "; " ++ "Win64; x64" ++
        ") AppleWebKit/537.36 (KHTML, like Gecko) Chrome/" ++ vs ++ " Safari/537.36") =
      [("sec-ch-ua", brandHeader (natRepr mj)), ("sec-ch-ua-mobile", "?0"),
       ("sec-ch-ua-platform", "\"Windows\"")] ∧
    containsSub (("Chrome/" ++ natRepr mj ++ ".").data)
      ("Mozilla/5.0 (Windows NT " ++ "10.0" ++ "; " ++ "Win64; x64" ++
        ") AppleWebKit/537.36 (KHTML, like Gecko) Chrome/" ++ vs ++ " Safari/537.36").data =
      true ∧
    containsSub (("Windows NT").data)
      ("Mozilla/5.0 (Windows NT " ++ "10.0" ++ "; " ++ "Win64; x64" ++
        ") AppleWebKit/537.36 (KHTML, like Gecko) Chrome/" ++ vs ++ " Safari/537.36").data =
      true := by
  have hdata :
      ("Mozilla/5.0 (Windows NT " ++ "10.0" ++ "; " ++ "Win64; x64" ++
        ") AppleWebKit/537.36 (KHTML, like Gecko) Chrome/" ++ vs ++ " Safari/537.36").data =
      ("Mozilla/5.0 ").data ++ '(' :: (("Windows NT 10.0; Win64; x64").data ++ ')' ::
        ((" AppleWebKit/537.36 (KHTML, like Gecko) ").data ++ (chromeToken ++
          (verData mj bld pt ++ ' ' :: ("Safari/537.36").data)))) := by
    have hfuse : ("Mozilla/5.0 (Windows NT " ++ "10.0" ++ "; " ++ "Win64; x64" ++
        ") AppleWebKit/537.36 (KHTML, like Gecko) Chrome/" : String) =
        "Mozilla/5.0 (Windows NT 10.0; Win64; x64) AppleWebKit/537.36 (KHTML, like Gecko) Chrome/" :=
      rfl
    rw [hfuse]
    simp only [String.data_append]
    rw [hvs]
    simp [chromeToken, List.cons_append, List.append_assoc]
  obtain ⟨h1, h2⟩ := clientHints_shape (("Mozilla/5.0 ").data)
    (("Windows NT 10.0; Win64; x64").data)
    ((" AppleWebKit/537.36 (KHTML, like Gecko) ").data) mj bld pt _ hdata
    (by decide) (by decide) (by decide) (by decide)
  have hassoc :
      ("Mozilla/5.0 ").data ++ '(' :: (("Windows NT 10.0; Win64; x64").data ++ ')' ::
        ((" AppleWebKit/537.36 (KHTML, like Gecko) ").data ++ (chromeToken ++
          (verData mj bld pt ++ ' ' :: ("Safari/537.36").data)))) =
      (("Mozilla/5.0 ").data ++ '(' :: (("Windows NT 10.0; Win64; x64").data ++ ')' ::
        (" AppleWebKit/537.36 (KHTML, like Gecko) ").data)) ++ (chromeToken ++
          (verData mj bld pt ++ ' ' :: ("Safari/537.36").data)) := by
    simp [List.append_assoc]
  have hwin : containsSub (("Windows").data)
      ("Mozilla/5.0 (Windows NT " ++ "10.0" ++ "; " ++ "Win64; x64" ++
        ") AppleWebKit/537.36 (KHTML, like Gecko) Chrome/" ++ vs ++ " Safari/537.36").data =
      true := by
    rw [hdata, hassoc]
    exact containsSub_append_left _ (by decide)
  rw [h1, hwin]
  exact ⟨by simp, h2, by rw [hdata, hassoc]; exact containsSub_append_left _ (by decide)⟩

lemma clientHints_windows11 (vs : String) (mj bld pt : ℕ)
    (hvs : vs.data = verData mj bld pt) :
    generateClientHints ("Mozilla/5.0 (Windows NT " ++ "11.0" ++ "; " ++ "Win64; x64" ++ ") AppleWebKit/537.36 (KHTML, like Gecko) Chrome/" ++ vs ++ " Safari/537.36") =
      [("sec-ch-ua", brandHeader (natRepr mj)), ("sec-ch-ua-mobile", "?0"),
       ("sec-ch-ua-platform", "\"Windows\"")] ∧
    containsSub (("Chrome/" ++ natRepr mj ++ ".").data) ("Mozilla/5.0 (Windows NT " ++ "11.0" ++ "; " ++ "Win64; x64" ++ ") AppleWebKit/537.36 (KHTML, like Gecko) Chrome/" ++ vs ++ " Safari/537.36").data = true ∧
    containsSub (("Windows NT").data) ("Mozilla/5.0 (Windows NT " ++ "11.0" ++ "; " ++ "Win64; x64" ++ ") AppleWebKit/537.36 (KHTML, like Gecko) Chrome/" ++ vs ++ " Safari/537.36").data = true := by
  have hdata : ("Mozilla/5.0 (Windows NT " ++ "11.0" ++ "; " ++ "Win64; x64" ++ ") AppleWebKit/537.36 (KHTML, like Gecko) Chrome/" ++ vs ++ " Safari/537.36").data =
      ("Mozilla/5.0 ").data ++ '(' :: (("Windows NT 11.0; Win64; x64").data ++ ')' :: ((" AppleWebKit/537.36 (KHTML, like Gecko) ").data ++ (chromeToken ++
        (verData mj bld pt ++ ' ' :: ("Safari/537.36").data)))) := by
    have hfuse : ("Mozilla/5.0 (Windows NT " ++ "11.0" ++ "; " ++ "Win64; x64" ++ ") AppleWebKit/537.36 (KHTML, like Gecko) Chrome/" : String) = "Mozilla/5.0 (Windows NT 11.0; Win64; x64) AppleWebKit/537.36 (KHTML, like Gecko) Chrome/" := rfl
    rw [hfuse]
    simp only [String.data_append]
    rw [hvs]
    simp [chromeToken, List.cons_append, List.append_assoc]
  obtain ⟨h1, h2⟩ := clientHints_shape ("Mozilla/5.0 ").data ("Windows NT 11.0; Win64; x64").data (" AppleWebKit/537.36 (KHTML, like Gecko) ").data mj bld pt _ hdata
    (by decide) (by decide) (by decide) (by decide)
  have hassoc2 :
      ("Mozilla/5.0 ").data ++ '(' :: (("Windows NT 11.0; Win64; x64").data ++ ')' :: ((" AppleWebKit/537.36 (KHTML, like Gecko) ").data ++ (chromeToken ++
        (verData mj bld pt ++ ' ' :: ("Safari/537.36").data)))) =
      (("Mozilla/5.0 ").data ++ '(' :: (("Windows NT 11.0; Win64; x64").data ++ ')' :: ((" AppleWebKit/537.36 (KHTML, like Gecko) ").data ++ chromeToken))) ++ (verData mj bld pt ++ (" Safari/537.36").data) := by
    rw [hS4data]
    simp [List.append_assoc]
  have hwin : containsSub (("Windows").data) ("Mozilla/5.0 (Windows NT " ++ "11.0" ++ "; " ++ "Win64; x64" ++ ") AppleWebKit/537.36 (KHTML, like Gecko) Chrome/" ++ vs ++ " Safari/537.36").data = true := by
    rw [hdata, hassoc2]
    exact containsSub_append_left _ (by decide)
  have htok : containsSub (("Windows NT").data) ("Mozilla/5.0 (Windows NT " ++ "11.0" ++ "; " ++ "Win64; x64" ++ ") AppleWebKit/537.36 (KHTML, like Gecko) Chrome/" ++ vs ++ " Safari/537.36").data = true := by
    rw [hdata, hassoc2]
    exact containsSub_append_left _ (by decide)
  rw [h1, hwin]
  exact ⟨by simp, h2, htok⟩

lemma clientHints_mac0 (vs : String) (mj bld pt : ℕ)
    (hvs : vs.data = verData mj bld pt) :
    generateClientHints ("Mozilla/5.0 (Macintosh; Intel Mac OS X " ++ "10_15_7" ++ ") AppleWebKit/537.36 (KHTML, like Gecko) Chrome/" ++ vs ++ " Safari/537.36") =
      [("sec-ch-ua", brandHeader (natRepr mj)), ("sec-ch-ua-mobile", "?0"),
       ("sec-ch-ua-platform", "\"macOS\"")] ∧
    containsSub (("Chrome/" ++ natRepr mj ++ ".").data) ("Mozilla/5.0 (Macintosh; Intel Mac OS X " ++ "10_15_7" ++ ") AppleWebKit/537.36 (KHTML, like Gecko) Chrome/" ++ vs ++ " Safari/537.36").data = true ∧
    containsSub (("Macintosh").data) ("Mozilla/5.0 (Macintosh; Intel Mac OS X " ++ "10_15_7" ++ ") AppleWebKit/537.36 (KHTML, like Gecko) Chrome/" ++ vs ++ " Safari/537.36").data = true := by
  have hdata : ("Mozilla/5.0 (Macintosh; Intel Mac OS X " ++ "10_15_7" ++ ") AppleWebKit/537.36 (KHTML, like Gecko) Chrome/" ++ vs ++ " Safari/537.36").data =
      ("Mozilla/5.0 ").data ++ '(' :: (("Macintosh; Intel Mac OS X 10_15_7").data ++ ')' :: ((" AppleWebKit/537.36 (KHTML, like Gecko) ").data ++ (chromeToken ++
        (verData mj bld pt ++ ' ' :: ("Safari/537.36").data)))) := by
    have hfuse : ("Mozilla/5.0 (Macintosh; Intel Mac OS X " ++ "10_15_7" ++ ") AppleWebKit/537.36 (KHTML, like Gecko) Chrome/" : String) = "Mozilla/5.0 (Macintosh; Intel Mac OS X 10_15_7) AppleWebKit/537.36 (KHTML, like Gecko) Chrome/" := rfl
    rw [hfuse]
    simp only [String.data_append]
    rw [hvs]
    simp [chromeToken, List.cons_append, List.append_assoc]
  obtain ⟨h1, h2⟩ := clientHints_shape ("Mozilla/5.0 ").data ("Macintosh; Intel Mac OS X 10_15_7").data (" AppleWebKit/537.36 (KHTML, like Gecko) ").data mj bld pt _ hdata
    (by decide) (by decide) (by decide) (by decide)
  have hassoc2 :
      ("Mozilla/5.0 ").data ++ '(' :: (("Macintosh; Intel Mac OS X 10_15_7").data ++ ')' :: ((" AppleWebKit/537.36 (KHTML, like Gecko) ").data ++ (chromeToken ++
        (verData mj bld pt ++ ' ' :: ("Safari/537.36").data)))) =
      (("Mozilla/5.0 ").data ++ '(' :: (("Macintosh; Intel Mac OS X 10_15_7").data ++ ')' :: ((" AppleWebKit/537.36 (KHTML, like Gecko) ").data ++ chromeToken))) ++ (verData mj bld pt ++ (" Safari/537.36").data) := by
    rw [hS4data]
    simp [List.append_assoc]
  have hnotwin : containsSub (("Windows").data) ("Mozilla/5.0 (Macintosh; Intel Mac OS X " ++ "10_15_7" ++ ") AppleWebKit/537.36 (KHTML, like Gecko) Chrome/" ++ vs ++ " Safari/537.36").data = false := by
    have hn : ("Windows").data = 'W' :: ("indows").data := rfl
    rw [hdata, hassoc2, hn]
    exact containsSub_ver_safari_false _ mj bld pt (by decide) (by decide) (by decide)
      (by decide) (by decide)
  have hmac : containsSub (("Mac").data) ("Mozilla/5.0 (Macintosh; Intel Mac OS X " ++ "10_15_7" ++ ") AppleWebKit/537.36 (KHTML, like Gecko) Chrome/" ++ vs ++ " Safari/537.36").data = true := by
    rw [hdata, hassoc2]
    exact containsSub_append_left _ (by decide)
  have htok : containsSub (("Macintosh").data) ("Mozilla/5.0 (Macintosh; Intel Mac OS X " ++ "10_15_7" ++ ") AppleWebKit/537.36 (KHTML, like Gecko) Chrome/" ++ vs ++ " Safari/537.36").data = true := by
    rw [hdata, hassoc2]
    exact containsSub_append_left _ (by decide)
  rw [h1, hnotwin, hmac]
  exact ⟨by simp, h2, htok⟩

lemma clientHints_mac1 (vs : String) (mj bld pt : ℕ)
    (hvs : vs.data = verData mj bld pt) :
    generateClientHints ("Mozilla/5.0 (Macintosh; Intel Mac OS X " ++ "11_0" ++ ") AppleWebKit/537.36 (KHTML, like Gecko) Chrome/" ++ vs ++ " Safari/537.36") =
      [("sec-ch-ua", brandHeader (natRepr mj)), ("sec-ch-ua-mobile", "?0"),
       ("sec-ch-ua-platform", "\"macOS\"")] ∧
    containsSub (("Chrome/" ++ natRepr mj ++ ".").data) ("Mozilla/5.0 (Macintosh; Intel Mac OS X " ++ "11_0" ++ ") AppleWebKit/537.36 (KHTML, like Gecko) Chrome/" ++ vs ++ " Safari/537.36").data = true ∧
    containsSub (("Macintosh").data) ("Mozilla/5.0 (Macintosh; Intel Mac OS X " ++ "11_0" ++ ") AppleWebKit/537.36 (KHTML, like Gecko) Chrome/" ++ vs ++ " Safari/537.36").data = true := by
  have hdata : ("Mozilla/5.0 (Macintosh; Intel Mac OS X " ++ "11_0" ++ ") AppleWebKit/537.36 (KHTML, like Gecko) Chrome/" ++ vs ++ " Safari/537.36").data =
      ("Mozilla/5.0 ").data ++ '(' :: (("Macintosh; Intel Mac OS X 11_0").data ++ ')' :: ((" AppleWebKit/537.36 (KHTML, like Gecko) ").data ++ (chromeToken ++
        (verData mj bld pt ++ ' ' :: ("Safari/537.36").data)))) := by
    have hfuse : ("Mozilla/5.0 (Macintosh; Intel Mac OS X " ++ "11_0" ++ ") AppleWebKit/537.36 (KHTML, like Gecko) Chrome/" : String) = "Mozilla/5.0 (Macintosh; Intel Mac OS X 11_0) AppleWebKit/537.36 (KHTML, like Gecko) Chrome/" := rfl
    rw [hfuse]
    simp only [String.data_append]
    rw [hvs]
    simp [chromeToken, List.cons_append, List.append_assoc]
  obtain ⟨h1, h2⟩ := clientHints_shape ("Mozilla/5.0 ").data ("Macintosh; Intel Mac OS X 11_0").data (" AppleWebKit/537.36 (KHTML, like Gecko) ").data mj bld pt _ hdata
    (by decide) (by decide) (by decide) (by decide)
  have hassoc2 :
      ("Mozilla/5.0 ").data ++ '(' :: (("Macintosh; Intel Mac OS X 11_0").data ++ ')' :: ((" AppleWebKit/537.36 (KHTML, like Gecko) ").data ++ (chromeToken ++
        (verData mj bld pt ++ ' ' :: ("Safari/537.36").data)))) =
      (("Mozilla/5.0 ").data ++ '(' :: (("Macintosh; Intel Mac OS X 11_0").data ++ ')' :: ((" AppleWebKit/537.36 (KHTML, like Gecko) ").data ++ chromeToken))) ++ (verData mj bld pt ++ (" Safari/537.36").data) := by
    rw [hS4data]
    simp [List.append_assoc]
  have hnotwin : containsSub (("Windows").data) ("Mozilla/5.0 (Macintosh; Intel Mac OS X " ++ "11_0" ++ ") AppleWebKit/537.36 (KHTML, like Gecko) Chrome/" ++ vs ++ " Safari/537.36").data = false := by
    have hn : ("Windows").data = 'W' :: ("indows").data := rfl
    rw [hdata, hassoc2, hn]
    exact containsSub_ver_safari_false _ mj bld pt (by decide) (by decide) (by decide)
      (by decide) (by decide)
  have hmac : containsSub (("Mac").data) ("Mozilla/5.0 (Macintosh; Intel Mac OS X " ++ "11_0" ++ ") AppleWebKit/537.36 (KHTML, like Gecko) Chrome/" ++ vs ++ " Safari/537.36").data = true := by
    rw [hdata, hassoc2]
    exact containsSub_append_left _ (by decide)
  have htok : containsSub (("Macintosh").data) ("Mozilla/5.0 (Macintosh; Intel Mac OS X " ++ "11_0" ++ ") AppleWebKit/537.36 (KHTML, like Gecko) Chrome/" ++ vs ++ " Safari/537.36").data = true := by
    rw [hdata, hassoc2]
    exact containsSub_append_left _ (by decide)
  rw [h1, hnotwin, hmac]
  exact ⟨by simp, h2, htok⟩

lemma clientHints_mac2 (vs : String) (mj bld pt : ℕ)
    (hvs : vs.data = verData mj bld pt) :
    generateClientHints ("Mozilla/5.0 (Macintosh; Intel Mac OS X " ++ "12_0" ++ ") AppleWebKit/537.36 (KHTML, like Gecko) Chrome/" ++ vs ++ " Safari/537.36") =
      [("sec-ch-ua", brandHeader (natRepr mj)), ("sec-ch-ua-mobile", "?0"),
       ("sec-ch-ua-platform", "\"macOS\"")] ∧
    containsSub (("Chrome/" ++ natRepr mj ++ ".").data) ("Mozilla/5.0 (Macintosh; Intel Mac OS X " ++ "12_0" ++ ") AppleWebKit/537.36 (KHTML, like Gecko) Chrome/" ++ vs ++ " Safari/537.36").data = true ∧
    containsSub (("Macintosh").data) ("Mozilla/5.0 (Macintosh; Intel Mac OS X " ++ "12_0" ++ ") AppleWebKit/537.36 (KHTML, like Gecko) Chrome/" ++ vs ++ " Safari/537.36").data = true := by
  have hdata : ("Mozilla/5.0 (Macintosh; Intel Mac OS X " ++ "12_0" ++ ") AppleWebKit/537.36 (KHTML, like Gecko) Chrome/" ++ vs ++ " Safari/537.36").data =
      ("Mozilla/5.0 ").data ++ '(' :: (("Macintosh; Intel Mac OS X 12_0").data ++ ')' :: ((" AppleWebKit/537.36 (KHTML, like Gecko) ").data ++ (chromeToken ++
        (verData mj bld pt ++ ' ' :: ("Safari/537.36").data)))) := by
    have hfuse : ("Mozilla/5.0 (Macintosh; Intel Mac OS X " ++ "12_0" ++ ") AppleWebKit/537.36 (KHTML, like Gecko) Chrome/" : String) = "Mozilla/5.0 (Macintosh; Intel Mac OS X 12_0) AppleWebKit/537.36 (KHTML, like Gecko) Chrome/" := rfl
    rw [hfuse]
    simp only [String.data_append]
    rw [hvs]
    simp [chromeToken, List.cons_append, List.append_assoc]
  obtain ⟨h1, h2⟩ := clientHints_shape ("Mozilla/5.0 ").data ("Macintosh; Intel Mac OS X 12_0").data (" AppleWebKit/537.36 (KHTML, like Gecko) ").data mj bld pt _ hdata
    (by decide) (by decide) (by decide) (by decide)
  have hassoc2 :
      ("Mozilla/5.0 ").data ++ '(' :: (("Macintosh; Intel Mac OS X 12_0").data ++ ')' :: ((" AppleWebKit/537.36 (KHTML, like Gecko) ").data ++ (chromeToken ++
        (verData mj bld pt ++ ' ' :: ("Safari/537.36").data)))) =
      (("Mozilla/5.0 ").data ++ '(' :: (("Macintosh; Intel Mac OS X 12_0").data ++ ')' :: ((" AppleWebKit/537.36 (KHTML, like Gecko) ").data ++ chromeToken))) ++ (verData mj bld pt ++ (" Safari/537.36").data) := by
    rw [hS4data]
    simp [List.append_assoc]
  have hnotwin : containsSub (("Windows").data) ("Mozilla/5.0 (Macintosh; Intel Mac OS X " ++ "12_0" ++ ") AppleWebKit/537.36 (KHTML, like Gecko) Chrome/" ++ vs ++ " Safari/537.36").data = false := by
    have hn : ("Windows").data = 'W' :: ("indows").data := rfl
    rw [hdata, hassoc2, hn]
    exact containsSub_ver_safari_false _ mj bld pt (by decide) (by decide) (by decide)
      (by decide) (by decide)
  have hmac : containsSub (("Mac").data) ("Mozilla/5.0 (Macintosh; Intel Mac OS X " ++ "12_0" ++ ") AppleWebKit/537.36 (KHTML, like Gecko) Chrome/" ++ vs ++ " Safari/537.36").data = true := by
    rw [hdata, hassoc2]
    exact containsSub_append_left _ (by decide)
  have htok : containsSub (("Macintosh").data) ("Mozilla/5.0 (Macintosh; Intel Mac OS X " ++ "12_0" ++ ") AppleWebKit/537.36 (KHTML, like Gecko) Chrome/" ++ vs ++ " Safari/537.36").data = true := by
    rw [hdata, hassoc2]
    exact containsSub_append_left _ (by decide)
  rw [h1, hnotwin, hmac]
  exact ⟨by simp, h2, htok⟩

lemma clientHints_mac3 (vs : String) (mj bld pt : ℕ)
    (hvs : vs.data = verData mj bld pt) :
    generateClientHints ("Mozilla/5.0 (Macintosh; Intel Mac OS X " ++ "13_0" ++ ") AppleWebKit/537.36 (KHTML, like Gecko) Chrome/" ++ vs ++ " Safari/537.36") =
      [("sec-ch-ua", brandHeader (natRepr mj)), ("sec-ch-ua-mobile", "?0"),
       ("sec-ch-ua-platform", "\"macOS\"")] ∧
    containsSub (("Chrome/" ++ natRepr mj ++ ".").data) ("Mozilla/5.0 (Macintosh; Intel Mac OS X " ++ "13_0" ++ ") AppleWebKit/537.36 (KHTML, like Gecko) Chrome/" ++ vs ++ " Safari/537.36").data = true ∧
    containsSub (("Macintosh").data) ("Mozilla/5.0 (Macintosh; Intel Mac OS X " ++ "13_0" ++ ") AppleWebKit/537.36 (KHTML, like Gecko) Chrome/" ++ vs ++ " Safari/537.36").data = true := by
  have hdata : ("Mozilla/5.0 (Macintosh; Intel Mac OS X " ++ "13_0" ++ ") AppleWebKit/537.36 (KHTML, like Gecko) Chrome/" ++ vs ++ " Safari/537.36").data =
      ("Mozilla/5.0 ").data ++ '(' :: (("Macintosh; Intel Mac OS X 13_0").data ++ ')' :: ((" AppleWebKit/537.36 (KHTML, like Gecko) ").data ++ (chromeToken ++
        (verData mj bld pt ++ ' ' :: ("Safari/537.36").data)))) := by
    have hfuse : ("Mozilla/5.0 (Macintosh; Intel Mac OS X " ++ "13_0" ++ ") AppleWebKit/537.36 (KHTML, like Gecko) Chrome/" : String) = "Mozilla/5.0 (Macintosh; Intel Mac OS X 13_0) AppleWebKit/537.36 (KHTML, like Gecko) Chrome/" := rfl
    rw [hfuse]
    simp only [String.data_append]
    rw [hvs]
    simp [chromeToken, List.cons_append, List.append_assoc]
  obtain ⟨h1, h2⟩ := clientHints_shape ("Mozilla/5.0 ").data ("Macintosh; Intel Mac OS X 13_0").data (" AppleWebKit/537.36 (KHTML, like Gecko) ").data mj bld pt _ hdata
    (by decide) (by decide) (by decide) (by decide)
  have hassoc2 :
      ("Mozilla/5.0 ").data ++ '(' :: (("Macintosh; Intel Mac OS X 13_0").data ++ ')' :: ((" AppleWebKit/537.36 (KHTML, like Gecko) ").data ++ (chromeToken ++
        (verData mj bld pt ++ ' ' :: ("Safari/537.36").data)))) =
      (("Mozilla/5.0 ").data ++ '(' :: (("Macintosh; Intel Mac OS X 13_0").data ++ ')' :: ((" AppleWebKit/537.36 (KHTML, like Gecko) ").data ++ chromeToken))) ++ (verData mj bld pt ++ (" Safari/537.36").data) := by
    rw [hS4data]
    simp [List.append_assoc]
  have hnotwin : containsSub (("Windows").data) ("Mozilla/5.0 (Macintosh; Intel Mac OS X " ++ "13_0" ++ ") AppleWebKit/537.36 (KHTML, like Gecko) Chrome/" ++ vs ++ " Safari/537.36").data = false := by
    have hn : ("Windows").data = 'W' :: ("indows").data := rfl
    rw [hdata, hassoc2, hn]
    exact containsSub_ver_safari_false _ mj bld pt (by decide) (by decide) (by decide)
      (by decide) (by decide)
  have hmac : containsSub (("Mac").data) ("Mozilla/5.0 (Macintosh; Intel Mac OS X " ++ "13_0" ++ ") AppleWebKit/537.36 (KHTML, like Gecko) Chrome/" ++ vs ++ " Safari/537.36").data = true := by
    rw [hdata, hassoc2]
    exact containsSub_append_left _ (by decide)
  have htok : containsSub (("Macintosh").data) ("Mozilla/5.0 (Macintosh; Intel Mac OS X " ++ "13_0" ++ ") AppleWebKit/537.36 (KHTML, like Gecko) Chrome/" ++ vs ++ " Safari/537.36").data = true := by
    rw [hdata, hassoc2]
    exact containsSub_append_left _ (by decide)
  rw [h1, hnotwin, hmac]
  exact ⟨by simp, h2, htok⟩

lemma clientHints_mac4 (vs : String) (mj bld pt : ℕ)
    (hvs : vs.data = verData mj bld pt) :
    generateClientHints ("Mozilla/5.0 (Macintosh; Intel Mac OS X " ++ "14_0" ++ ") AppleWebKit/537.36 (KHTML, like Gecko) Chrome/" ++ vs ++ " Safari/537.36") =
      [("sec-ch-ua", brandHeader (natRepr mj)), ("sec-ch-ua-mobile", "?0"),
       ("sec-ch-ua-platform", "\"macOS\"")] ∧
    containsSub (("Chrome/" ++ natRepr mj ++ ".").data) ("Mozilla/5.0 (Macintosh; Intel Mac OS X " ++ "14_0" ++ ") AppleWebKit/537.36 (KHTML, like Gecko) Chrome/" ++ vs ++ " Safari/537.36").data = true ∧
    containsSub (("Macintosh").data) ("Mozilla/5.0 (Macintosh; Intel Mac OS X " ++ "14_0" ++ ") AppleWebKit/537.36 (KHTML, like Gecko) Chrome/" ++ vs ++ " Safari/537.36").data = true := by
  have hdata : ("Mozilla/5.0 (Macintosh; Intel Mac OS X " ++ "14_0" ++ ") AppleWebKit/537.36 (KHTML, like Gecko) Chrome/" ++ vs ++ " Safari/537.36").data =
      ("Mozilla/5.0 ").data ++ '(' :: (("Macintosh; Intel Mac OS X 14_0").data ++ ')' :: ((" AppleWebKit/537.36 (KHTML, like Gecko) ").data ++ (chromeToken ++
        (verData mj bld pt ++ ' ' :: ("Safari/537.36").data)))) := by
    have hfuse : ("Mozilla/5.0 (Macintosh; Intel Mac OS X " ++ "14_0" ++ ") AppleWebKit/537.36 (KHTML, like Gecko) Chrome/" : String) = "Mozilla/5.0 (Macintosh; Intel Mac OS X 14_0) AppleWebKit/537.36 (KHTML, like Gecko) Chrome/" := rfl
    rw [hfuse]
    simp only [String.data_append]
    rw [hvs]
    simp [chromeToken, List.cons_append, List.append_assoc]
  obtain ⟨h1, h2⟩ := clientHints_shape ("Mozilla/5.0 ").data ("Macintosh; Intel Mac OS X 14_0").data (" AppleWebKit/537.36 (KHTML, like Gecko) ").data mj bld pt _ hdata
    (by decide) (by decide) (by decide) (by decide)
  have hassoc2 :
      ("Mozilla/5.0 ").data ++ '(' :: (("Macintosh; Intel Mac OS X 14_0").data ++ ')' :: ((" AppleWebKit/537.36 (KHTML, like Gecko) ").data ++ (chromeToken ++
        (verData mj bld pt ++ ' ' :: ("Safari/537.36").data)))) =
      (("Mozilla/5.0 ").data ++ '(' :: (("Macintosh; Intel Mac OS X 14_0").data ++ ')' :: ((" AppleWebKit/537.36 (KHTML, like Gecko) ").data ++ chromeToken))) ++ (verData mj bld pt ++ (" Safari/537.36").data) := by
    rw [hS4data]
    simp [List.append_assoc]
  have hnotwin : containsSub (("Windows").data) ("Mozilla/5.0 (Macintosh; Intel Mac OS X " ++ "14_0" ++ ") AppleWebKit/537.36 (KHTML, like Gecko) Chrome/" ++ vs ++ " Safari/537.36").data = false := by
    have hn : ("Windows").data = 'W' :: ("indows").data := rfl
    rw [hdata, hassoc2, hn]
    exact containsSub_ver_safari_false _ mj bld pt (by decide) (by decide) (by decide)
      (by decide) (by decide)
  have hmac : containsSub (("Mac").data) ("Mozilla/5.0 (Macintosh; Intel Mac OS X " ++ "14_0" ++ ") AppleWebKit/537.36 (KHTML, like Gecko) Chrome/" ++ vs ++ " Safari/537.36").data = true := by
    rw [hdata, hassoc2]
    exact containsSub_append_left _ (by decide)
  have htok : containsSub (("Macintosh").data) ("Mozilla/5.0 (Macintosh; Intel Mac OS X " ++ "14_0" ++ ") AppleWebKit/537.36 (KHTML, like Gecko) Chrome/" ++ vs ++ " Safari/537.36").data = true := by
    rw [hdata, hassoc2]
    exact containsSub_append_left _ (by decide)
  rw [h1, hnotwin, hmac]
  exact ⟨by simp, h2, htok⟩

lemma clientHints_linux (vs : String) (mj bld pt : ℕ)
    (hvs : vs.data = verData mj bld pt) :
    generateClientHints ("Mozilla/5.0 (X11; Linux x86_64) AppleWebKit/537.36 (KHTML, like Gecko) Chrome/" ++ vs ++ " Safari/537.36") =
      [("sec-ch-ua", brandHeader (natRepr mj)), ("sec-ch-ua-mobile", "?0"),
       ("sec-ch-ua-platform", "\"Linux\"")] ∧
    containsSub (("Chrome/" ++ natRepr mj ++ ".").data) ("Mozilla/5.0 (X11; Linux x86_64) AppleWebKit/537.36 (KHTML, like Gecko) Chrome/" ++ vs ++ " Safari/537.36").data = true ∧
    containsSub (("X11; Linux x86_64").data) ("Mozilla/5.0 (X11; Linux x86_64) AppleWebKit/537.36 (KHTML, like Gecko) Chrome/" ++ vs ++ " Safari/537.36").data = true := by
  have hdata : ("Mozilla/5.0 (X11; Linux x86_64) AppleWebKit/537.36 (KHTML, like Gecko) Chrome/" ++ vs ++ " Safari/537.36").data =
      ("Mozilla/5.0 ").data ++ '(' :: (("X11; Linux x86_64").data ++ ')' :: ((" AppleWebKit/537.36 (KHTML, like Gecko) ").data ++ (chromeToken ++
        (verData mj bld pt ++ ' ' :: ("Safari/537.36").data)))) := by
    have hfuse : ("Mozilla/5.0 (X11; Linux x86_64) AppleWebKit/537.36 (KHTML, like Gecko) Chrome/" : String) = "Mozilla/5.0 (X11; Linux x86_64) AppleWebKit/537.36 (KHTML, like Gecko) Chrome/" := rfl
    rw [hfuse]
    simp only [String.data_append]
    rw [hvs]
    simp [chromeToken, List.cons_append, List.append_assoc]
  obtain ⟨h1, h2⟩ := clientHints_shape ("Mozilla/5.0 ").data ("X11; Linux x86_64").data (" AppleWebKit/537.36 (KHTML, like Gecko) ").data mj bld pt _ hdata
    (by decide) (by decide) (by decide) (by decide)
  have hassoc2 :
      ("Mozilla/5.0 ").data ++ '(' :: (("X11; Linux x86_64").data ++ ')' :: ((" AppleWebKit/537.36 (KHTML, like Gecko) ").data ++ (chromeToken ++
        (verData mj bld pt ++ ' ' :: ("Safari/537.36").data)))) =
      (("Mozilla/5.0 ").data ++ '(' :: (("X11; Linux x86_64").data ++ ')' :: ((" AppleWebKit/537.36 (KHTML, like Gecko) ").data ++ chromeToken))) ++ (verData mj bld pt ++ (" Safari/537.36").data) := by
    rw [hS4data]
    simp [List.append_assoc]
  have hnotwin : containsSub (("Windows").data) ("Mozilla/5.0 (X11; Linux x86_64) AppleWebKit/537.36 (KHTML, like Gecko) Chrome/" ++ vs ++ " Safari/537.36").data = false := by
    have hn : ("Windows").data = 'W' :: ("indows").data := rfl
    rw [hdata, hassoc2, hn]
    exact containsSub_ver_safari_false _ mj bld pt (by decide) (by decide) (by decide)
      (by decide) (by decide)
  have hnotmac : containsSub (("Mac").data) ("Mozilla/5.0 (X11; Linux x86_64) AppleWebKit/537.36 (KHTML, like Gecko) Chrome/" ++ vs ++ " Safari/537.36").data = false := by
    have hn : ("Mac").data = 'M' :: ("ac").data := rfl
    rw [hdata, hassoc2, hn]
    exact containsSub_ver_safari_false _ mj bld pt (by decide) (by decide) (by decide)
      (by decide) (by decide)
  have htok : containsSub (("X11; Linux x86_64").data) ("Mozilla/5.0 (X11; Linux x86_64) AppleWebKit/537.36 (KHTML, like Gecko) Chrome/" ++ vs ++ " Safari/537.36").data = true := by
    rw [hdata, hassoc2]
    exact containsSub_append_left _ (by decide)
  rw [h1, hnotwin, hnotmac]
  exact ⟨by simp, h2, htok⟩

lemma intRepr_natCast (n : ℕ) : intRepr ((n : ℕ) : ℤ) = natRepr n := by
  unfold intRepr
  rw [if_neg (by omega)]
  simp

lemma randomInt_natCast (lo hi : ℤ) (hint : 0 ≤ (hi : ℚ) - (lo : ℚ) + 1)
    (s : ℕ → ℚ) (k : ℕ) (h0 : 0 ≤ s k) (hlo : 0 ≤ lo) :
    ∃ n : ℕ, randomInt lo hi s k = (((n : ℕ) : ℤ), k + 1) := by
  refine ⟨(⌊s k * ((hi : ℚ) - (lo : ℚ) + 1)⌋ + lo).toNat, ?_⟩
  have hfl : 0 ≤ ⌊s k * ((hi : ℚ) - (lo : ℚ) + 1)⌋ :=
    Int.floor_nonneg.mpr (mul_nonneg h0 hint)
  have hnn : 0 ≤ ⌊s k * ((hi : ℚ) - (lo : ℚ) + 1)⌋ + lo := by omega
  show (⌊s k * ((hi : ℚ) - (lo : ℚ) + 1)⌋ + lo, k + 1) = _
  rw [Int.toNat_of_nonneg hnn]

lemma randomChoice_getD_pair {α : Type} (l : List α) (dflt : α) (s : ℕ → ℚ) (k : ℕ)
    (h0 : 0 ≤ s k) (h1 : s k < 1) (hl : l ≠ []) :
    ∃ i : ℕ, i < l.length ∧ randomChoice l dflt s k = (l.getD i dflt, k + 1) := by
  refine ⟨(⌊s k * (l.length : ℚ)⌋).toNat, ?_, rfl⟩
  have hlen : 0 < l.length := List.length_pos.mpr hl
  have hltq : s k * (l.length : ℚ) < (l.length : ℚ) := by
    have := mul_lt_mul_of_pos_right h1 (show (0 : ℚ) < (l.length : ℚ) by exact_mod_cast hlen)
    simpa using this
  have hlt : ⌊s k * (l.length : ℚ)⌋ < (l.length : ℤ) :=
    Int.floor_lt.mpr (by exact_mod_cast hltq)
  omega

lemma verString_data (mj bld pt : ℕ) :
    (natRepr mj ++ "." ++ natRepr 0 ++ "." ++ natRepr bld ++ "." ++ natRepr pt).data =
    verData mj bld pt := by
  simp only [String.data_append, natRepr_data]
  simp [verData, List.append_assoc, show natDigits 0 = ['0'] from by decide]

lemma c4_windows (s : ℕ → ℚ) (k : ℕ) (h : ∀ i, 0 ≤ s i ∧ s i < 1) :
    clientHintsAgree (generateWindowsUA s k).1 := by
  have hsplit : (generateWindowsUA s k).1 =
      "Mozilla/5.0 (Windows NT " ++ (randomChoice windowsVersions ("") s (k+3)).1 ++ "; " ++
        (randomChoice windowsArch ("") s (k+4)).1 ++
        ") AppleWebKit/537.36 (KHTML, like Gecko) Chrome/" ++
        (intRepr (randomInt 110 120 s k).1 ++ "." ++ intRepr 0 ++ "." ++
          intRepr (randomInt 5000 6000 s (k+1)).1 ++ "." ++
          intRepr (randomInt 0 200 s (k+2)).1) ++ " Safari/537.36" := rfl
  obtain ⟨mj, hmj⟩ := randomInt_natCast 110 120 (by norm_num) s k (h k).1 (by norm_num)
  obtain ⟨bld, hbld⟩ := randomInt_natCast 5000 6000 (by norm_num) s (k+1) (h (k+1)).1 (by norm_num)
  obtain ⟨pt, hpt⟩ := randomInt_natCast 0 200 (by norm_num) s (k+2) (h (k+2)).1 (by norm_num)
  obtain ⟨i1, hi1, hnt⟩ := randomChoice_getD_pair windowsVersions ("") s (k+3)
    (h (k+3)).1 (h (k+3)).2 (by simp [windowsVersions])
  obtain ⟨i2, hi2, harch⟩ := randomChoice_getD_pair windowsArch ("") s (k+4)
    (h (k+4)).1 (h (k+4)).2 (by simp [windowsArch])
  have hmj1 : intRepr (randomInt 110 120 s k).1 = natRepr mj := by
    rw [hmj]; exact intRepr_natCast mj
  have hbld1 : intRepr (randomInt 5000 6000 s (k+1)).1 = natRepr bld := by
    rw [hbld]; exact intRepr_natCast bld
  have hpt1 : intRepr (randomInt 0 200 s (k+2)).1 = natRepr pt := by
    rw [hpt]; exact intRepr_natCast pt
  have h01 : intRepr (0 : ℤ) = natRepr 0 := intRepr_natCast 0
  have hnt1 : (randomChoice windowsVersions ("") s (k+3)).1 = windowsVersions.getD i1 ("") := by
    rw [hnt]
  have harch1 : (randomChoice windowsArch ("") s (k+4)).1 = windowsArch.getD i2 ("") := by
    rw [harch]
  rw [hmj1, hbld1, hpt1, h01, hnt1, harch1] at hsplit
  have hi2' : i2 = 0 := by simp [windowsArch] at hi2; omega
  rw [hi2', show windowsArch.getD 0 ("") = "Win64; x64" from rfl] at hsplit
  simp [windowsVersions] at hi1
  interval_cases i1
  · rw [show windowsVersions.getD 0 ("") = "10.0" from rfl] at hsplit
    obtain ⟨hh1, hh2, hh3⟩ := clientHints_windows10
      (natRepr mj ++ "." ++ natRepr 0 ++ "." ++ natRepr bld ++ "." ++ natRepr pt)
      mj bld pt (verString_data mj bld pt)
    rw [hsplit]
    exact ⟨by rw [hh1]; simp, mj, by simp [natRepr_data]; exact natDigits_ne_nil,
      by simp only [natRepr_data]; exact natDigits_digits,
      by rw [hh1]; rfl, hh2, Or.inl ⟨hh3, by rw [hh1]; rfl⟩⟩
  · rw [show windowsVersions.getD 1 ("") = "11.0" from rfl] at hsplit
    obtain ⟨hh1, hh2, hh3⟩ := clientHints_windows11
      (natRepr mj ++ "." ++ natRepr 0 ++ "." ++ natRepr bld ++ "." ++ natRepr pt)
      mj bld pt (verString_data mj bld pt)
    rw [hsplit]
    exact ⟨by rw [hh1]; simp, mj, by simp [natRepr_data]; exact natDigits_ne_nil,
      by simp only [natRepr_data]; exact natDigits_digits,
      by rw [hh1]; rfl, hh2, Or.inl ⟨hh3, by rw [hh1]; rfl⟩⟩

lemma c4_mac (s : ℕ → ℚ) (k : ℕ) (h : ∀ i, 0 ≤ s i ∧ s i < 1) :
    clientHintsAgree (generateMacUA s k).1 := by
  have hsplit : (generateMacUA s k).1 =
      "Mozilla/5.0 (Macintosh; Intel Mac OS X " ++ (randomChoice macVersions ("") s (k+3)).1 ++
        ") AppleWebKit/537.36 (KHTML, like Gecko) Chrome/" ++
        (intRepr (randomInt 110 120 s k).1 ++ "." ++ intRepr 0 ++ "." ++
          intRepr (randomInt 5000 6000 s (k+1)).1 ++ "." ++
          intRepr (randomInt 0 200 s (k+2)).1) ++ " Safari/537.36" := rfl
  obtain ⟨mj, hmj⟩ := randomInt_natCast 110 120 (by norm_num) s k (h k).1 (by norm_num)
  obtain ⟨bld, hbld⟩ := randomInt_natCast 5000 6000 (by norm_num) s (k+1) (h (k+1)).1 (by norm_num)
  obtain ⟨pt, hpt⟩ := randomInt_natCast 0 200 (by norm_num) s (k+2) (h (k+2)).1 (by norm_num)
  obtain ⟨i1, hi1, hos⟩ := randomChoice_getD_pair macVersions ("") s (k+3)
    (h (k+3)).1 (h (k+3)).2 (by simp [macVersions])
  have hmj1 : intRepr (randomInt 110 120 s k).1 = natRepr mj := by
    rw [hmj]; exact intRepr_natCast mj
  have hbld1 : intRepr (randomInt 5000 6000 s (k+1)).1 = natRepr bld := by
    rw [hbld]; exact intRepr_natCast bld
  have hpt1 : intRepr (randomInt 0 200 s (k+2)).1 = natRepr pt := by
    rw [hpt]; exact intRepr_natCast pt
  have h01 : intRepr (0 : ℤ) = natRepr 0 := intRepr_natCast 0
  have hos1 : (randomChoice macVersions ("") s (k+3)).1 = macVersions.getD i1 ("") := by
    rw [hos]
  rw [hmj1, hbld1, hpt1, h01, hos1] at hsplit
  simp [macVersions] at hi1
  interval_cases i1
  · rw [show macVersions.getD 0 ("") = "10_15_7" from rfl] at hsplit
    obtain ⟨hh1, hh2, hh3⟩ := clientHints_mac0
      (natRepr mj ++ "." ++ natRepr 0 ++ "." ++ natRepr bld ++ "." ++ natRepr pt)
      mj bld pt (verString_data mj bld pt)
    rw [hsplit]
    exact ⟨by rw [hh1]; simp, mj, by simp [natRepr_data]; exact natDigits_ne_nil,
      by simp only [natRepr_data]; exact natDigits_digits,
      by rw [hh1]; rfl, hh2, Or.inr (Or.inl ⟨hh3, by rw [hh1]; rfl⟩)⟩
  · rw [show macVersions.getD 1 ("") = "11_0" from rfl] at hsplit
    obtain ⟨hh1, hh2, hh3⟩ := clientHints_mac1
      (natRepr mj ++ "." ++ natRepr 0 ++ "." ++ natRepr bld ++ "." ++ natRepr pt)
      mj bld pt (verString_data mj bld pt)
    rw [hsplit]
    exact ⟨by rw [hh1]; simp, mj, by simp [natRepr_data]; exact natDigits_ne_nil,
      by simp only [natRepr_data]; exact natDigits_digits,
      by rw [hh1]; rfl, hh2, Or.inr (Or.inl ⟨hh3, by rw [hh1]; rfl⟩)⟩
  · rw [show macVersions.getD 2 ("") = "12_0" from rfl] at hsplit
    obtain ⟨hh1, hh2, hh3⟩ := clientHints_mac2
      (natRepr mj ++ "." ++ natRepr 0 ++ "." ++ natRepr bld ++ "." ++ natRepr pt)
      mj bld pt (verString_data mj bld pt)
    rw [hsplit]
    exact ⟨by rw [hh1]; simp, mj, by simp [natRepr_data]; exact natDigits_ne_nil,
      by simp only [natRepr_data]; exact natDigits_digits,
      by rw [hh1]; rfl, hh2, Or.inr (Or.inl ⟨hh3, by rw [hh1]; rfl⟩)⟩
  · rw [show macVersions.getD 3 ("") = "13_0" from rfl] at hsplit
    obtain ⟨hh1, hh2, hh3⟩ := clientHints_mac3
      (natRepr mj ++ "." ++ natRepr 0 ++ "." ++ natRepr bld ++ "." ++ natRepr pt)
      mj bld pt (verString_data mj bld pt)
    rw [hsplit]
    exact ⟨by rw [hh1]; simp, mj, by simp [natRepr_data]; exact natDigits_ne_nil,
      by simp only [natRepr_data]; exact natDigits_digits,
      by rw [hh1]; rfl, hh2, Or.inr (Or.inl ⟨hh3, by rw [hh1]; rfl⟩)⟩
  · rw [show macVersions.getD 4 ("") = "14_0" from rfl] at hsplit
    obtain ⟨hh1, hh2, hh3⟩ := clientHints_mac4
      (natRepr mj ++ "." ++ natRepr 0 ++ "." ++ natRepr bld ++ "." ++ natRepr pt)
      mj bld pt (verString_data mj bld pt)
    rw [hsplit]
    exact ⟨by rw [hh1]; simp, mj, by simp [natRepr_data]; exact natDigits_ne_nil,
      by simp only [natRepr_data]; exact natDigits_digits,
      by rw [hh1]; rfl, hh2, Or.inr (Or.inl ⟨hh3, by rw [hh1]; rfl⟩)⟩

lemma c4_linux (s : ℕ → ℚ) (k : ℕ) (h : ∀ i, 0 ≤ s i ∧ s i < 1) :
    clientHintsAgree (generateLinuxUA s k).1 := by
  have hsplit : (generateLinuxUA s k).1 =
      "Mozilla/5.0 (X11; Linux x86_64) AppleWebKit/537.36 (KHTML, like Gecko) Chrome/" ++
        (intRepr (randomInt 110 120 s k).1 ++ "." ++ intRepr 0 ++ "." ++
          intRepr (randomInt 5000 6000 s (k+1)).1 ++ "." ++
          intRepr (randomInt 0 200 s (k+2)).1) ++ " Safari/537.36" := rfl
  obtain ⟨mj, hmj⟩ := randomInt_natCast 110 120 (by norm_num) s k (h k).1 (by norm_num)
  obtain ⟨bld, hbld⟩ := randomInt_natCast 5000 6000 (by norm_num) s (k+1) (h (k+1)).1 (by norm_num)
  obtain ⟨pt, hpt⟩ := randomInt_natCast 0 200 (by norm_num) s (k+2) (h (k+2)).1 (by norm_num)
  have hmj1 : intRepr (randomInt 110 120 s k).1 = natRepr mj := by
    rw [hmj]; exact intRepr_natCast mj
  have hbld1 : intRepr (randomInt 5000 6000 s (k+1)).1 = natRepr bld := by
    rw [hbld]; exact intRepr_natCast bld
  have hpt1 : intRepr (randomInt 0 200 s (k+2)).1 = natRepr pt := by
    rw [hpt]; exact intRepr_natCast pt
  have h01 : intRepr (0 : ℤ) = natRepr 0 := intRepr_natCast 0
  rw [hmj1, hbld1, hpt1, h01] at hsplit
  obtain ⟨hh1, hh2, hh3⟩ := clientHints_linux
    (natRepr mj ++ "." ++ natRepr 0 ++ "." ++ natRepr bld ++ "." ++ natRepr pt)
    mj bld pt (verString_data mj bld pt)
  rw [hsplit]
  exact ⟨by rw [hh1]; simp, mj, by simp [natRepr_data]; exact natDigits_ne_nil,
    by simp only [natRepr_data]; exact natDigits_digits,
    by rw [hh1]; rfl, hh2, Or.inr (Or.inr ⟨hh3, by rw [hh1]; rfl⟩)⟩

/-- Claim C4: for every user-agent string produced by `generateUA` (any
platform choice, any stream of in-range `Math.random` draws),
`generateClientHints` returns a non-empty header record whose `sec-ch-ua`
value carries exactly the Chrome major-version token appearing in the
user-agent after `Chrome/`, and whose `sec-ch-ua-platform` value is
`"Windows"`, `"macOS"` or `"Linux"` in agreement with the user-agent's OS
token, so the two representations never disagree. -/
theorem client_hints_derived_from_ua (p : PlatformType) (s : ℕ → ℚ) (k : ℕ)
    (h : ∀ i, 0 ≤ s i ∧ s i < 1) :
    clientHintsAgree (generateUA p s k).1 := by
  cases p with
  | windows => exact c4_windows s k h
  | mac => exact c4_mac s k h
  | linux => exact c4_linux s k h
  | random =>
    have heq : generateUA PlatformType.random s k =
        dispatchUA (resolveRandomPlatform (s k)) s (k + 1) := rfl
    rw [heq]
    cases resolveRandomPlatform (s k) with
    | windows => exact c4_windows s (k + 1) h
    | mac => exact c4_mac s (k + 1) h
    | linux => exact c4_linux s (k + 1) h
    | random => exact c4_windows s (k + 1) h

/-- Concrete instantiation of the client-hint agreement theorem on the
all-zero draw stream with platform `mac`. -/
theorem client_hints_derived_from_ua_witness :
    (∀ i : ℕ, 0 ≤ ((fun _ : ℕ => (0 : ℚ)) i) ∧ ((fun _ : ℕ => (0 : ℚ)) i) < 1) ∧
    clientHintsAgree (generateUA PlatformType.mac (fun _ : ℕ => (0 : ℚ)) 0).1 := by
  have hh : ∀ i : ℕ, 0 ≤ ((fun _ : ℕ => (0 : ℚ)) i) ∧ ((fun _ : ℕ => (0 : ℚ)) i) < 1 :=
    fun i => ⟨le_refl 0, by norm_num⟩
  exact ⟨hh, client_hints_derived_from_ua PlatformType.mac (fun _ : ℕ => (0 : ℚ)) 0 hh⟩

end BFP
